import Mathlib

set_option linter.unnecessarySeqFocus false
set_option linter.unreachableTactic false
set_option linter.unusedTactic false

/-!
Verification development for the shapeshyft_api prompt/payload construction
and provider-abstraction engine.

The definitions below are shallow embeddings of the TypeScript source:

* `src/services/llm/types.ts` — cost table and `estimateCost`;
* `src/lib/prompt-builder.ts` — schema instruction renderer, example
  generator, prompt assembly;
* `src/lib/api-helper.ts` — combined prompt and legacy split prompts;
* the four provider adapters (OpenAI, Anthropic, Gemini, custom server);
* the two `handleAIRequest` orchestrator variants.

JavaScript numbers are modeled as exact rationals (`ℚ`) where arithmetic
matters and as integers (`ℤ`) inside JSON values; `Math.round` is modeled as
rounding half toward positive infinity.  JavaScript objects are modeled as
association lists in insertion order.
-/

namespace Shapeshyft

/-- JSON values, which also model the JavaScript values flowing through the
engine.  Numbers are modeled as integers, which covers every numeric value
the claims exercise; objects are association lists in insertion order. -/
inductive Json : Type where
  | null : Json
  | bool (b : Bool) : Json
  | num (n : ℤ) : Json
  | str (s : String) : Json
  | arr (items : List Json) : Json
  | obj (fields : List (String × Json)) : Json

/-- Hexadecimal digit character for `\uXXXX` escapes. -/
def hexDigitChar (n : ℕ) : Char :=
  if n < 10 then Char.ofNat (48 + n) else Char.ofNat (87 + n)

/-- Escape of one character inside a JSON-serialized string, following
`JSON.stringify`. -/
def jsEscapeChar (c : Char) : String :=
  if c = '"' then "\\\""
  else if c = '\\' then "\\\\"
  else if c = '\n' then "\\n"
  else if c = '\r' then "\\r"
  else if c = '\t' then "\\t"
  else if c.toNat = 8 then "\\b"
  else if c.toNat = 12 then "\\f"
  else if c.toNat < 32 then
    "\\u00" ++ String.mk [hexDigitChar (c.toNat / 16), hexDigitChar (c.toNat % 16)]
  else String.singleton c

/-- String literal serialization of `JSON.stringify`. -/
def jsQuote (s : String) : String :=
  "\"" ++ String.join (s.data.map jsEscapeChar) ++ "\""

mutual

/-- Embedding of compact `JSON.stringify(value)` (no space argument). -/
def jsonStringify : Json → String
  | Json.null => "null"
  | Json.bool true => "true"
  | Json.bool false => "false"
  | Json.num n => toString n
  | Json.str s => jsQuote s
  | Json.arr xs => "[" ++ String.intercalate "," (jsonStringifyList xs) ++ "]"
  | Json.obj fs => "\x7b" ++ String.intercalate "," (jsonStringifyFields fs) ++ "\x7d"

/-- Compact serialization of the elements of a JSON array. -/
def jsonStringifyList : List Json → List String
  | [] => []
  | x :: xs => jsonStringify x :: jsonStringifyList xs

/-- Compact serialization of the fields of a JSON object. -/
def jsonStringifyFields : List (String × Json) → List String
  | [] => []
  | (k, v) :: fs => (jsQuote k ++ ":" ++ jsonStringify v) :: jsonStringifyFields fs

end

mutual

/-- Embedding of pretty `JSON.stringify(value, null, 2)`; `indent` is the
indentation prefix of the current nesting level (empty at the top level). -/
def jsonStringifyIndent (indent : String) : Json → String
  | Json.arr [] => "[]"
  | Json.arr (x :: xs) =>
    "[\n" ++ String.intercalate ",\n" (jsonIndentItems (indent ++ "  ") (x :: xs))
      ++ "\n" ++ indent ++ "]"
  | Json.obj [] => "\x7b\x7d"
  | Json.obj (f :: fs) =>
    "\x7b\n" ++ String.intercalate ",\n" (jsonIndentFields (indent ++ "  ") (f :: fs))
      ++ "\n" ++ indent ++ "\x7d"
  | v => jsonStringify v

/-- Pretty serialization of array elements, each on its own indented line. -/
def jsonIndentItems (indent : String) : List Json → List String
  | [] => []
  | x :: xs => (indent ++ jsonStringifyIndent indent x) :: jsonIndentItems indent xs

/-- Pretty serialization of object fields, each on its own indented line. -/
def jsonIndentFields (indent : String) : List (String × Json) → List String
  | [] => []
  | (k, v) :: fs =>
    (indent ++ jsQuote k ++ ": " ++ jsonStringifyIndent indent v) :: jsonIndentFields indent fs

end

mutual

/-- JavaScript string conversion `String(value)` as used by template
literals: strings pass through unquoted, arrays join their elements with
commas, and plain objects print as `[object Object]`. -/
def jsToString : Json → String
  | Json.null => "null"
  | Json.bool true => "true"
  | Json.bool false => "false"
  | Json.num n => toString n
  | Json.str s => s
  | Json.arr xs => String.intercalate "," (jsToStringElems xs)
  | Json.obj _ => "[object Object]"

/-- Element conversion inside `Array.prototype.toString`: `null` renders as
the empty string. -/
def jsToStringElems : List Json → List String
  | [] => []
  | Json.null :: xs => "" :: jsToStringElems xs
  | x :: xs => jsToString x :: jsToStringElems xs

end

/-- Recursive JSON Schema structure as consumed by the prompt builder
(`JsonSchema` from the shared types package): every recognized keyword is an
optional field; `properties` is an ordered name-to-schema mapping. -/
inductive JsonSchema : Type where
  | mk
    (type : Option String)
    (properties : Option (List (String × JsonSchema)))
    (required : Option (List String))
    (items : Option JsonSchema)
    (enum : Option (List Json))
    (minimum : Option ℤ)
    (maximum : Option ℤ)
    (minLength : Option ℤ)
    (maxLength : Option ℤ)
    (pattern : Option String)
    (format : Option String)
    (description : Option String)
    (defaultValue : Option Json)

/-- Projection: the `type` keyword. -/
def JsonSchema.type : JsonSchema → Option String
  | .mk t _ _ _ _ _ _ _ _ _ _ _ _ => t

/-- Projection: the `properties` keyword. -/
def JsonSchema.properties : JsonSchema → Option (List (String × JsonSchema))
  | .mk _ p _ _ _ _ _ _ _ _ _ _ _ => p

/-- Projection: the `required` keyword. -/
def JsonSchema.required : JsonSchema → Option (List String)
  | .mk _ _ r _ _ _ _ _ _ _ _ _ _ => r

/-- Projection: the `items` keyword. -/
def JsonSchema.items : JsonSchema → Option JsonSchema
  | .mk _ _ _ i _ _ _ _ _ _ _ _ _ => i

/-- Projection: the `enum` keyword. -/
def JsonSchema.enum : JsonSchema → Option (List Json)
  | .mk _ _ _ _ e _ _ _ _ _ _ _ _ => e

/-- Projection: the `minimum` keyword. -/
def JsonSchema.minimum : JsonSchema → Option ℤ
  | .mk _ _ _ _ _ m _ _ _ _ _ _ _ => m

/-- Projection: the `maximum` keyword. -/
def JsonSchema.maximum : JsonSchema → Option ℤ
  | .mk _ _ _ _ _ _ m _ _ _ _ _ _ => m

/-- Projection: the `minLength` keyword. -/
def JsonSchema.minLength : JsonSchema → Option ℤ
  | .mk _ _ _ _ _ _ _ m _ _ _ _ _ => m

/-- Projection: the `maxLength` keyword. -/
def JsonSchema.maxLength : JsonSchema → Option ℤ
  | .mk _ _ _ _ _ _ _ _ m _ _ _ _ => m

/-- Projection: the `pattern` keyword. -/
def JsonSchema.pattern : JsonSchema → Option String
  | .mk _ _ _ _ _ _ _ _ _ p _ _ _ => p

/-- Projection: the `format` keyword. -/
def JsonSchema.format : JsonSchema → Option String
  | .mk _ _ _ _ _ _ _ _ _ _ f _ _ => f

/-- Projection: the `description` keyword. -/
def JsonSchema.description : JsonSchema → Option String
  | .mk _ _ _ _ _ _ _ _ _ _ _ d _ => d

/-- Projection: the `default` keyword (named `defaultValue` here). -/
def JsonSchema.defaultValue : JsonSchema → Option Json
  | .mk _ _ _ _ _ _ _ _ _ _ _ _ d => d

/-- A schema with none of the keywords set, for building test instances. -/
def emptySchema : JsonSchema :=
  .mk none none none none none none none none none none none none none

/-- JavaScript `"s".repeat(n)`. -/
def strRepeat (s : String) : ℕ → String
  | 0 => ""
  | n + 1 => s ++ strRepeat s n

/-- Embedding of `extractConstraints` from `src/lib/prompt-builder.ts`:
joins the present numeric/string constraints with commas (JavaScript
truthiness makes an empty `pattern` or `format` count as absent, while
`minimum !== undefined` keeps an explicit 0). -/
def extractConstraints (schema : JsonSchema) : String :=
  let cs : List String :=
    (match schema.minimum with
     | some m => ["min: " ++ toString m]
     | none => [])
    ++ (match schema.maximum with
        | some m => ["max: " ++ toString m]
        | none => [])
    ++ (match schema.minLength with
        | some m => ["min length: " ++ toString m]
        | none => [])
    ++ (match schema.maxLength with
        | some m => ["max length: " ++ toString m]
        | none => [])
    ++ (match schema.pattern with
        | some p => if p = "" then [] else ["pattern: " ++ p]
        | none => [])
    ++ (match schema.format with
        | some f => if f = "" then [] else ["format: " ++ f]
        | none => [])
  String.intercalate ", " cs

mutual

/-- Embedding of `schemaToPromptInstructions` from
`src/lib/prompt-builder.ts`: one indented bullet line per property with
type, required/optional marker and description, plus optional allowed-value,
constraint and nested-shape lines; the produced lines are joined with
newlines. -/
def schemaToPromptInstructions (schema : JsonSchema) (depth : ℕ) : String :=
  let indent := strRepeat "  " depth
  let lines :=
    match schema with
    | .mk ty props req _ _ _ _ _ _ _ _ _ _ =>
      if ty.getD "object" = "object" then
        match props with
        | some propList => instrPropLines propList (req.getD []) indent depth
        | none => []
      else []
  String.intercalate "\n" lines

/-- Lines contributed by one property list inside
`schemaToPromptInstructions` (the body of the `for` loop of the source). -/
def instrPropLines (props : List (String × JsonSchema)) (required : List String)
    (indent : String) (depth : ℕ) : List String :=
  match props with
  | [] => []
  | (propName,
     JsonSchema.mk pty pprops preq pitems penum pmin pmax pminl pmaxl ppat pfmt pdesc pdflt)
      :: rest =>
    ([indent ++ "- `" ++ propName ++ "` (" ++ pty.getD "any" ++ ") "
        ++ (if required.contains propName then "(required)" else "(optional)")
        ++ ": " ++ pdesc.getD ""]
      ++ (match penum with
          | some es =>
            [indent ++ "  Allowed values: "
              ++ String.intercalate ", " (es.map (fun v => "\"" ++ jsToString v ++ "\""))]
          | none => [])
      ++ (if extractConstraints
              (JsonSchema.mk pty pprops preq pitems penum pmin pmax pminl pmaxl ppat pfmt
                pdesc pdflt) = "" then []
          else
            [indent ++ "  Constraints: "
              ++ extractConstraints
                (JsonSchema.mk pty pprops preq pitems penum pmin pmax pminl pmaxl ppat pfmt
                  pdesc pdflt)])
      ++ (if pty.getD "any" == "object" && pprops.isSome then
            [indent ++ "  Properties:",
             schemaToPromptInstructions
               (JsonSchema.mk pty pprops preq pitems penum pmin pmax pminl pmaxl ppat pfmt
                 pdesc pdflt)
               (depth + 2)]
          else
            match pitems with
            | some its =>
              if pty.getD "any" == "array" then
                [indent ++ "  (array of items, each item should have:)",
                 schemaToPromptInstructions its (depth + 2)]
              else []
            | none => []))
      ++ instrPropLines rest required indent depth

end

mutual

/-- Embedding of `generateSchemaExample` from `src/lib/prompt-builder.ts`:
an explicit `default` wins, else the first `enum` value, else recursion per
property for objects, a singleton array of the item example for arrays, and
fixed placeholders for primitives. -/
def generateSchemaExample (schema : JsonSchema) : Json :=
  match schema with
  | .mk ty props _ items en _ _ _ _ _ _ _ dflt =>
    let schemaType := ty.getD "object"
    match dflt with
    | some d => d
    | none =>
      match en with
      | some (e :: _) => e
      | _ =>
        match props, schemaType == "object" with
        | some ps, true => Json.obj (examplePropFields ps)
        | _, _ =>
          if schemaType = "array" then
            match items with
            | some it => Json.arr [generateSchemaExample it]
            | none => Json.arr []
          else if schemaType = "string" then Json.str "<string>"
          else if schemaType = "number" then Json.num 0
          else if schemaType = "integer" then Json.num 0
          else if schemaType = "boolean" then Json.bool true
          else Json.null

/-- Example generation for each property of an object schema. -/
def examplePropFields : List (String × JsonSchema) → List (String × Json)
  | [] => []
  | (name, prop) :: rest => (name, generateSchemaExample prop) :: examplePropFields rest

end

/-- Embedding of `isComplexSchema` from `src/lib/prompt-builder.ts`: true
when the schema has more than 3 properties or any property of `object` or
`array` type. -/
def isComplexSchema (schema : JsonSchema) : Bool :=
  match schema.properties with
  | none => false
  | some props =>
    if props.length > 3 then true
    else props.any fun p => p.2.type == some "object" || p.2.type == some "array"

/-- Parts array built by `buildSystemPrompt` in `src/lib/prompt-builder.ts`
(the source pushes these strings into `parts` and joins with newlines). -/
def buildSystemPromptParts (userDescription : Option String)
    (outputSchema : Option JsonSchema) : List String :=
  ["You are a helpful assistant that produces structured data output."]
  ++ (match userDescription with
      | some d => if d = "" then [] else ["\n## Task Description\n" ++ d]
      | none => [])
  ++ (match outputSchema with
      | some schema =>
        ["\n## Output Structure\nYour response must include the following fields:\n"
           ++ schemaToPromptInstructions schema 0]
        ++ (if isComplexSchema schema then
              ["\n## Example Output Structure\n```json\n"
                 ++ jsonStringifyIndent "" (generateSchemaExample schema) ++ "\n```"]
            else [])
      | none => [])
  ++ ["\n## Response Format\nRespond with valid JSON only. Do not include any text outside the JSON object."]

/-- Embedding of `buildSystemPrompt` from `src/lib/prompt-builder.ts`. -/
def buildSystemPrompt (userDescription : Option String)
    (outputSchema : Option JsonSchema) : String :=
  String.intercalate "\n" (buildSystemPromptParts userDescription outputSchema)

/-- JavaScript test `typeof v === "object" && v !== null`: true exactly for
objects and arrays (JavaScript `null` also has type `object` but is
excluded by the second conjunct). -/
def isJsObjectNonNull : Json → Bool
  | Json.obj _ => true
  | Json.arr _ => true
  | _ => false

/-- JavaScript `Object.entries` on a value cast to a record: objects list
their fields in insertion order, arrays list index keys `"0"`, `"1"`, …;
primitives have no enumerable entries. -/
def jsEntries : Json → List (String × Json)
  | Json.obj fs => fs
  | Json.arr xs => xs.enum.map fun p => (toString p.1, p.2)
  | _ => []

/-- Lines produced by the loop of `formatStructuredInput` in
`src/lib/prompt-builder.ts`: nested plain objects (not arrays, not null) get
a key header line and one extra indent level; everything else is serialized
inline with `JSON.stringify`. -/
def formatLines : List (String × Json) → List String
  | [] => []
  | (key, value) :: rest =>
    (match value with
     | Json.obj fields =>
       ("- " ++ key ++ ":")
         :: fields.map (fun kv => "    - " ++ kv.1 ++ ": " ++ jsonStringify kv.2)
     | _ => ["- " ++ key ++ ": " ++ jsonStringify value])
    ++ formatLines rest

/-- Embedding of `formatStructuredInput` from `src/lib/prompt-builder.ts`. -/
def formatStructuredInput (data : List (String × Json)) : String :=
  String.intercalate "\n" (formatLines data)

/-- Embedding of `buildUserPrompt` from `src/lib/prompt-builder.ts`. -/
def buildUserPrompt (inputData : Json) (isStructured : Bool) : String :=
  if isStructured && isJsObjectNonNull inputData then
    "Process the following data and generate the structured response:\n\n"
      ++ formatStructuredInput (jsEntries inputData)
  else
    "Process the following text and generate the structured response:\n\n"
      ++ jsToString inputData

/-- Embedding of `buildPrompts` from `src/lib/prompt-builder.ts`
(system prompt, user prompt). -/
def buildPrompts (inputData : Json) (outputSchema : Option JsonSchema)
    (userDescription : Option String) (isStructuredInput : Bool) : String × String :=
  (buildSystemPrompt userDescription outputSchema,
   buildUserPrompt inputData isStructuredInput)

/-- The closed provider enumeration. -/
inductive LlmProvider : Type where
  | openai : LlmProvider
  | anthropic : LlmProvider
  | gemini : LlmProvider
  | llm_server : LlmProvider
  deriving DecidableEq

/-- Embedding of `getProviderNotes` from `src/lib/api-helper.ts`. -/
def getProviderNotes : LlmProvider → String
  | .openai => "Note: This prompt is optimized for OpenAI models (GPT-4, GPT-4o, etc.)"
  | .anthropic => "Note: This prompt is optimized for Anthropic models (Claude)"
  | .gemini => "Note: This prompt is optimized for Google Gemini models"
  | .llm_server => "Note: This prompt is designed for custom LLM servers"

/-- The `PromptInput` value object of the shared types package. -/
structure PromptInput : Type where
  inputData : Json
  outputSchema : Option JsonSchema
  description : Option String
  context : Option String
  provider : LlmProvider

/-- Parts array built by `ApiHelper.prompt` in `src/lib/api-helper.ts`
(the source pushes these strings into `parts` and joins with newlines). -/
def apiHelperPromptParts (input : PromptInput) : List String :=
  (let providerNote := getProviderNotes input.provider
   if providerNote = "" then [] else ["<!-- " ++ providerNote ++ " -->\n"])
  ++ ["# Instructions\n",
      "You are a helpful assistant that produces structured data output."]
  ++ (match input.description with
      | some d => if d = "" then [] else ["\n## Task\n" ++ d]
      | none => [])
  ++ (match input.context with
      | some ctx => if ctx = "" then [] else ["\n## Context\n" ++ ctx]
      | none => [])
  ++ (match input.outputSchema with
      | some schema =>
        ["\n## Required Output Fields\nYour response must include the following fields:\n"
           ++ schemaToPromptInstructions schema 0]
        ++ (if isComplexSchema schema then
              ["\n## Example Output\n```json\n"
                 ++ jsonStringifyIndent "" (generateSchemaExample schema) ++ "\n```"]
            else [])
      | none => [])
  ++ ["\n## Response Format\nRespond with valid JSON only. Do not include any text outside the JSON object."]
  ++ ["\n---\n", "# Input\n"]
  ++ (if isJsObjectNonNull input.inputData then
        ["Process the following data:\n", formatStructuredInput (jsEntries input.inputData)]
      else
        ["Process the following data:\n", jsonStringify input.inputData])

/-- Embedding of `ApiHelper.prompt` from `src/lib/api-helper.ts`: the single
combined human-readable prompt. -/
def apiHelperPrompt (input : PromptInput) : String :=
  String.intercalate "\n" (apiHelperPromptParts input)

/-- Embedding of `ApiHelper.buildLegacyPrompts` from
`src/lib/api-helper.ts` (system prompt, user prompt; the user prompt is
always built in structured mode). -/
def buildLegacyPrompts (input : PromptInput) : String × String :=
  (buildSystemPrompt input.description input.outputSchema,
   buildUserPrompt input.inputData true)

/-- The schema-instruction block shared by the combined and legacy prompts:
the fixed lead-in sentence followed by the rendered field instructions. -/
def instructionBlock (schema : JsonSchema) : String :=
  "Your response must include the following fields:\n"
    ++ schemaToPromptInstructions schema 0

/-- The example block shared by the combined and legacy prompts: a fenced
JSON code block holding the pretty-printed generated example. -/
def exampleCodeBlock (schema : JsonSchema) : String :=
  "```json\n" ++ jsonStringifyIndent "" (generateSchemaExample schema) ++ "\n```"

/-- The `ProviderConfig` record of `src/services/llm/types.ts`: all three
fields optional, checked at adapter construction. -/
structure ProviderConfig : Type where
  apiKey : Option String
  endpointUrl : Option String
  model : Option String

/-- The canonical `LLMRequest` of `src/services/llm/types.ts`.  The output
schema is carried as the raw JSON record the adapters embed in their
payloads. -/
structure LLMRequest : Type where
  prompt : String
  systemPrompt : Option String
  outputSchema : List (String × Json)
  model : Option String
  temperature : Option ℚ
  maxTokens : Option ℤ

/-- JavaScript truthiness on an optional string: absent or empty is falsy. -/
def optStrTruthy : Option String → Option String
  | some s => if s = "" then none else some s
  | none => none

/-- A chat message of the OpenAI-compatible payload shape. -/
structure ChatMessage : Type where
  role : String
  content : String
  deriving DecidableEq

/-- A declared tool binding the output schema, as embedded in payloads. -/
structure ToolSpec : Type where
  name : String
  description : String
  parameters : List (String × Json)

/-- State of a constructed `OpenAIProvider` instance. -/
structure OpenAIProvider : Type where
  apiKey : String
  defaultModel : String

/-- Embedding of the `OpenAIProvider` constructor: a falsy (absent or
empty) API key fails immediately. -/
def OpenAIProvider.construct (config : ProviderConfig) : Except String OpenAIProvider :=
  match config.apiKey with
  | none => .error "OpenAI API key is required"
  | some k =>
    if k = "" then .error "OpenAI API key is required"
    else .ok ⟨k, config.model.getD "gpt-4o-mini"⟩

/-- State of a constructed `AnthropicProvider` instance. -/
structure AnthropicProvider : Type where
  apiKey : String
  defaultModel : String

/-- Embedding of the `AnthropicProvider` constructor. -/
def AnthropicProvider.construct (config : ProviderConfig) : Except String AnthropicProvider :=
  match config.apiKey with
  | none => .error "Anthropic API key is required"
  | some k =>
    if k = "" then .error "Anthropic API key is required"
    else .ok ⟨k, config.model.getD "claude-3-5-sonnet-20241022"⟩

/-- State of a constructed `GeminiProvider` instance. -/
structure GeminiProvider : Type where
  apiKey : String
  defaultModel : String

/-- Embedding of the `GeminiProvider` constructor. -/
def GeminiProvider.construct (config : ProviderConfig) : Except String GeminiProvider :=
  match config.apiKey with
  | none => .error "Gemini API key is required"
  | some k =>
    if k = "" then .error "Gemini API key is required"
    else .ok ⟨k, config.model.getD "gemini-1.5-flash"⟩

/-- State of a constructed `CustomLLMProvider` instance (timeout fixed at
120000 milliseconds by the constructor). -/
structure CustomLLMProvider : Type where
  endpointUrl : String
  timeout : ℤ

/-- Embedding of the `CustomLLMProvider` constructor: a falsy endpoint URL
fails immediately. -/
def CustomLLMProvider.construct (config : ProviderConfig) : Except String CustomLLMProvider :=
  match config.endpointUrl with
  | none => .error "LLM Server endpoint URL is required"
  | some u =>
    if u = "" then .error "LLM Server endpoint URL is required"
    else .ok ⟨u, 120000⟩

/-- Canonical usage triple of `LLMResponse`. -/
structure Usage : Type where
  promptTokens : ℤ
  completionTokens : ℤ
  totalTokens : ℤ
  deriving DecidableEq

/-- The raw `usage` record a provider may return, with every spelling the
code base reads from OpenAI-style responses. -/
structure RawUsage : Type where
  prompt_tokens : Option ℤ
  completion_tokens : Option ℤ
  input_tokens : Option ℤ
  output_tokens : Option ℤ
  total_tokens : Option ℤ

/-- Embedding of `CustomLLMProvider.extractUsage`: either field naming is
accepted, absent counts default to zero, and the total falls back to the
sum. -/
def CustomLLMProvider.extractUsage (usage : Option RawUsage) : Usage :=
  match usage with
  | none => ⟨0, 0, 0⟩
  | some u =>
    let promptTokens := ((u.prompt_tokens).orElse fun _ => u.input_tokens).getD 0
    let completionTokens := ((u.completion_tokens).orElse fun _ => u.output_tokens).getD 0
    let totalTokens := (u.total_tokens).getD (promptTokens + completionTokens)
    ⟨promptTokens, completionTokens, totalTokens⟩

/-- Embedding of the usage resolution inside `OpenAIProvider.generate`:
`response.usage?.prompt_tokens ?? 0` and friends — only the
`prompt_tokens` spelling is read and an absent total defaults to zero. -/
def OpenAIProvider.resolveUsage (usage : Option RawUsage) : Usage :=
  ⟨(usage.bind RawUsage.prompt_tokens).getD 0,
   (usage.bind RawUsage.completion_tokens).getD 0,
   (usage.bind RawUsage.total_tokens).getD 0⟩

/-- Embedding of the usage resolution inside `AnthropicProvider.generate`:
the SDK reports `input_tokens`/`output_tokens` and the adapter sums them
for the total. -/
def AnthropicProvider.resolveUsage (input_tokens output_tokens : ℤ) : Usage :=
  ⟨input_tokens, output_tokens, input_tokens + output_tokens⟩

/-- The `usageMetadata` record of a Gemini response. -/
structure GeminiUsageMetadata : Type where
  promptTokenCount : Option ℤ
  candidatesTokenCount : Option ℤ
  totalTokenCount : Option ℤ

/-- Embedding of the usage resolution inside `GeminiProvider.generate`:
Gemini-specific field names, each defaulting to zero — including the
total. -/
def GeminiProvider.resolveUsage (m : Option GeminiUsageMetadata) : Usage :=
  ⟨(m.bind GeminiUsageMetadata.promptTokenCount).getD 0,
   (m.bind GeminiUsageMetadata.candidatesTokenCount).getD 0,
   (m.bind GeminiUsageMetadata.totalTokenCount).getD 0⟩

/-- Modelled from the words of claim C4: resolve counts accepting either
`prompt_tokens`/`completion_tokens` or `input_tokens`/`output_tokens`
naming, default any absent count to zero, and compute the total as the sum
when the provider does not separately report one. -/
def resolveUsageSpec (usage : Option RawUsage) : Usage :=
  match usage with
  | none => ⟨0, 0, 0⟩
  | some u =>
    let promptTokens := ((u.prompt_tokens).orElse fun _ => u.input_tokens).getD 0
    let completionTokens := ((u.completion_tokens).orElse fun _ => u.output_tokens).getD 0
    ⟨promptTokens, completionTokens, (u.total_tokens).getD (promptTokens + completionTokens)⟩

/-- Native OpenAI request payload built by `OpenAIProvider.buildApiPayload`. -/
structure OpenAIPayload : Type where
  model : String
  messages : List ChatMessage
  tools : List ToolSpec
  tool_choice : String
  temperature : ℚ
  max_tokens : Option ℤ

/-- Embedding of `OpenAIProvider.buildApiPayload`. -/
def OpenAIProvider.buildApiPayload (p : OpenAIProvider) (request : LLMRequest) : OpenAIPayload :=
  let model := request.model.getD p.defaultModel
  let messages :=
    (match optStrTruthy request.systemPrompt with
     | some s => [ChatMessage.mk "system" s]
     | none => [])
    ++ [ChatMessage.mk "user" request.prompt]
  { model := model
    messages := messages
    tools := [⟨"structured_response", "Generate structured response matching the schema",
      request.outputSchema⟩]
    tool_choice := "structured_response"
    temperature := request.temperature.getD 0
    max_tokens := request.maxTokens }

/-- Native Anthropic request payload built by
`AnthropicProvider.buildApiPayload`. -/
structure AnthropicPayload : Type where
  model : String
  max_tokens : ℤ
  system : Option String
  messages : List ChatMessage
  tools : List ToolSpec
  tool_choice : String
  temperature : ℚ

/-- Embedding of `AnthropicProvider.buildApiPayload`. -/
def AnthropicProvider.buildApiPayload (p : AnthropicProvider) (request : LLMRequest) :
    AnthropicPayload :=
  { model := request.model.getD p.defaultModel
    max_tokens := request.maxTokens.getD 4096
    system := request.systemPrompt
    messages := [ChatMessage.mk "user" request.prompt]
    tools := [⟨"structured_response", "Generate structured response matching the schema",
      request.outputSchema⟩]
    tool_choice := "structured_response"
    temperature := request.temperature.getD 0 }

/-- The meta-keywords `convertToGeminiSchema` strips. -/
def geminiUnsupportedKeywords : List String := ["$schema", "$id", "definitions", "$defs"]

/-- Embedding of `GeminiProvider.convertToGeminiSchema`: shallow-copy the
schema record and delete the unsupported top-level keywords.  JavaScript
object keys are unique, so spread-then-delete is removal of those keys. -/
def convertToGeminiSchema (jsonSchema : List (String × Json)) : List (String × Json) :=
  jsonSchema.filter fun p => decide (p.1 ∉ geminiUnsupportedKeywords)

/-- The `generationConfig` of a Gemini request. -/
structure GeminiGenerationConfig : Type where
  responseMimeType : String
  responseSchema : List (String × Json)
  temperature : ℚ
  maxOutputTokens : Option ℤ

/-- Native Gemini request payload built by `GeminiProvider.buildApiPayload`. -/
structure GeminiPayload : Type where
  model : String
  contents : List String
  systemInstruction : Option String
  generationConfig : GeminiGenerationConfig

/-- Embedding of `GeminiProvider.buildApiPayload`. -/
def GeminiProvider.buildApiPayload (p : GeminiProvider) (request : LLMRequest) : GeminiPayload :=
  { model := request.model.getD p.defaultModel
    contents := [request.prompt]
    systemInstruction := optStrTruthy request.systemPrompt
    generationConfig :=
      { responseMimeType := "application/json"
        responseSchema := convertToGeminiSchema request.outputSchema
        temperature := request.temperature.getD 0
        maxOutputTokens := request.maxTokens } }

/-- Native OpenAI-compatible payload built by
`CustomLLMProvider.buildApiPayload`. -/
structure CustomPayload : Type where
  messages : List ChatMessage
  temperature : ℚ
  max_tokens : Option ℤ
  response_format : String
  tools : List ToolSpec
  tool_choice : String

/-- Embedding of `CustomLLMProvider.buildApiPayload`. -/
def CustomLLMProvider.buildApiPayload (request : LLMRequest) : CustomPayload :=
  let messages :=
    (match optStrTruthy request.systemPrompt with
     | some s => [ChatMessage.mk "system" s]
     | none => [])
    ++ [ChatMessage.mk "user" request.prompt]
  { messages := messages
    temperature := request.temperature.getD 0
    max_tokens := request.maxTokens
    response_format := "json_object"
    tools := [⟨"structured_response", "Generate structured response matching the schema",
      request.outputSchema⟩]
    tool_choice := "structured_response" }

/-- A constructed adapter instance, one variant per provider kind. -/
inductive ProviderInstance : Type where
  | openai (p : OpenAIProvider) : ProviderInstance
  | anthropic (p : AnthropicProvider) : ProviderInstance
  | gemini (p : GeminiProvider) : ProviderInstance
  | llm_server (p : CustomLLMProvider) : ProviderInstance

/-- Embedding of `createLLMProvider` from `src/services/llm/index.ts`:
dispatch on the provider tag; construction failures propagate. -/
def createLLMProvider (providerType : LlmProvider) (config : ProviderConfig) :
    Except String ProviderInstance :=
  match providerType with
  | .openai => (OpenAIProvider.construct config).map ProviderInstance.openai
  | .anthropic => (AnthropicProvider.construct config).map ProviderInstance.anthropic
  | .gemini => (GeminiProvider.construct config).map ProviderInstance.gemini
  | .llm_server => (CustomLLMProvider.construct config).map ProviderInstance.llm_server

/-- Provider-native payload, one variant per provider kind. -/
inductive ApiPayload : Type where
  | openai (p : OpenAIPayload) : ApiPayload
  | anthropic (p : AnthropicPayload) : ApiPayload
  | gemini (p : GeminiPayload) : ApiPayload
  | llm_server (p : CustomPayload) : ApiPayload

/-- Polymorphic `buildApiPayload` dispatch over a constructed instance. -/
def ProviderInstance.buildApiPayload : ProviderInstance → LLMRequest → ApiPayload
  | .openai p, r => .openai (OpenAIProvider.buildApiPayload p r)
  | .anthropic p, r => .anthropic (AnthropicProvider.buildApiPayload p r)
  | .gemini p, r => .gemini (GeminiProvider.buildApiPayload p r)
  | .llm_server _, r => .llm_server (CustomLLMProvider.buildApiPayload r)

/-- Embedding of the `PROVIDER_ENDPOINTS` hint table from
`src/services/llm/index.ts`. -/
def PROVIDER_ENDPOINTS : LlmProvider → String
  | .openai => "https://api.openai.com/v1/chat/completions"
  | .anthropic => "https://api.anthropic.com/v1/messages"
  | .gemini =>
    "https://generativelanguage.googleapis.com/v1beta/models/\x7bmodel\x7d:generateContent"
  | .llm_server => "\x7bcustom_endpoint\x7d"

/-- JavaScript `Math.round`: round half toward positive infinity. -/
def jsRound (x : ℚ) : ℤ := ⌊x + 1/2⌋

/-- Embedding of the static rate table `COST_PER_MILLION_TOKENS` from
`src/services/llm/types.ts` (input rate, output rate) in cents per million
tokens, keyed by model name. -/
def costPerMillionTokens (model : String) : Option (ℚ × ℚ) :=
  if model = "gpt-4o" then some (250, 1000)
  else if model = "gpt-4o-mini" then some (15, 60)
  else if model = "gpt-4-turbo" then some (1000, 3000)
  else if model = "gpt-3.5-turbo" then some (50, 150)
  else if model = "claude-3-5-sonnet-20241022" then some (300, 1500)
  else if model = "claude-3-opus-20240229" then some (1500, 7500)
  else if model = "claude-3-haiku-20240307" then some (25, 125)
  else if model = "gemini-1.5-pro" then some (125, 500)
  else if model = "gemini-1.5-flash" then some (15/2, 30)
  else if model = "gemini-2.0-flash-exp" then some (0, 0)
  else if model = "default" then some (100, 300)
  else none

/-- The `default` entry of the rate table, used for unknown models. -/
def defaultCostEntry : ℚ × ℚ := (100, 300)

/-- Embedding of `estimateCost` from `src/services/llm/types.ts`. -/
def estimateCost (model : String) (inputTokens outputTokens : ℚ) : ℚ :=
  let costs := (costPerMillionTokens model).getD defaultCostEntry
  let inputCost := inputTokens / 1000000 * costs.1
  let outputCost := outputTokens / 1000000 * costs.2
  (jsRound ((inputCost + outputCost) * 100) : ℚ) / 100

/-- Modelled from the words of the specification of the cost estimator:
look up a fixed per-million-token rate by exact model-name string, use the
default entry otherwise, and compute
inputTokens/1,000,000 × inputRate + outputTokens/1,000,000 × outputRate
rounded to 2 decimal places. -/
def estimateCostSpec (model : String) (inputTokens outputTokens : ℚ) : ℚ :=
  let rates :=
    match costPerMillionTokens model with
    | some r => r
    | none => defaultCostEntry
  (jsRound ((inputTokens / 1000000 * rates.1 + outputTokens / 1000000 * rates.2) * 100) : ℚ)
    / 100


/-- The closed `endpoint_type` enumeration of the database schema. -/
inductive EndpointType : Type where
  | structured_in_structured_out : EndpointType
  | text_in_structured_out : EndpointType
  | structured_in_api_out : EndpointType
  | text_in_api_out : EndpointType
  deriving DecidableEq

/-- Embedding of `isStructuredInput` from the legacy `ai` router. -/
def isStructuredInput : EndpointType → Bool
  | .structured_in_structured_out => true
  | .structured_in_api_out => true
  | _ => false

/-- Embedding of `callsLLM` from the legacy `ai` router. -/
def callsLLM : EndpointType → Bool
  | .structured_in_structured_out => true
  | .text_in_structured_out => true
  | _ => false

/-- Coerce one JSON field value to an optional string, as the prompt
builder reads it through the `as JsonSchema` cast. -/
def jsonAsString : Option Json → Option String
  | some (Json.str s) => some s
  | _ => none

/-- Coerce one JSON field value to an optional integer. -/
def jsonAsInt : Option Json → Option ℤ
  | some (Json.num n) => some n
  | _ => none

/-- Coerce one JSON field value to an optional string list (the `required`
keyword). -/
def jsonAsStringList : Option Json → Option (List String)
  | some (Json.arr xs) =>
    some (xs.filterMap fun j => match j with | Json.str s => some s | _ => none)
  | _ => none

mutual

/-- View of a raw JSON value as the `JsonSchema` structure the prompt
builder consumes (the runtime meaning of the `as JsonSchema` cast applied
to the stored JSONB output schema). -/
def schemaOfJson : Json → JsonSchema
  | Json.obj fs => schemaOfJsonFields fs
  | _ => emptySchema

/-- Field-by-field accumulation of the schema view of a JSON record. -/
def schemaOfJsonFields : List (String × Json) → JsonSchema
  | [] => emptySchema
  | (k, v) :: rest =>
    match schemaOfJsonFields rest with
    | JsonSchema.mk ty pr rq it en mn mx mnl mxl pa fm ds df =>
      if k = "type" then
        JsonSchema.mk (jsonAsString (some v)) pr rq it en mn mx mnl mxl pa fm ds df
      else if k = "properties" then
        JsonSchema.mk ty (some (schemaPropsOf v)) rq it en mn mx mnl mxl pa fm ds df
      else if k = "required" then
        JsonSchema.mk ty pr (jsonAsStringList (some v)) it en mn mx mnl mxl pa fm ds df
      else if k = "items" then
        JsonSchema.mk ty pr rq (some (schemaOfJson v)) en mn mx mnl mxl pa fm ds df
      else if k = "enum" then
        JsonSchema.mk ty pr rq it
          (match v with | Json.arr xs => some xs | _ => none) mn mx mnl mxl pa fm ds df
      else if k = "minimum" then
        JsonSchema.mk ty pr rq it en (jsonAsInt (some v)) mx mnl mxl pa fm ds df
      else if k = "maximum" then
        JsonSchema.mk ty pr rq it en mn (jsonAsInt (some v)) mnl mxl pa fm ds df
      else if k = "minLength" then
        JsonSchema.mk ty pr rq it en mn mx (jsonAsInt (some v)) mxl pa fm ds df
      else if k = "maxLength" then
        JsonSchema.mk ty pr rq it en mn mx mnl (jsonAsInt (some v)) pa fm ds df
      else if k = "pattern" then
        JsonSchema.mk ty pr rq it en mn mx mnl mxl (jsonAsString (some v)) fm ds df
      else if k = "format" then
        JsonSchema.mk ty pr rq it en mn mx mnl mxl pa (jsonAsString (some v)) ds df
      else if k = "description" then
        JsonSchema.mk ty pr rq it en mn mx mnl mxl pa fm (jsonAsString (some v)) df
      else if k = "default" then
        JsonSchema.mk ty pr rq it en mn mx mnl mxl pa fm ds (some v)
      else
        JsonSchema.mk ty pr rq it en mn mx mnl mxl pa fm ds df

/-- Schema view of the value of a `properties` keyword. -/
def schemaPropsOf : Json → List (String × JsonSchema)
  | Json.obj fs => schemaPropList fs
  | _ => []

/-- Schema view of each named property. -/
def schemaPropList : List (String × Json) → List (String × JsonSchema)
  | [] => []
  | (n, pv) :: rest => (n, schemaOfJson pv) :: schemaPropList rest

end

/-- The endpoint row fields the `ai` handlers consume. -/
structure EndpointRecord : Type where
  endpoint_type : EndpointType
  http_method : String
  output_schema : Option (List (String × Json))
  description : Option String
  instructions : Option String
  context : Option String

/-- The LLM key row fields the `ai` handlers consume. -/
structure LlmKeyRecord : Type where
  provider : LlmProvider
  encrypted_api_key : Option String
  encryption_iv : Option String
  endpoint_url : Option String

/-- The incoming HTTP request as the handlers see it: the method, the
decoded JSON body (`none` models a body that fails to parse), and the
query parameters. -/
structure AIRequest : Type where
  method : String
  body : Option Json
  queryParams : List (String × String)

/-- Canonical `LLMResponse` of `src/services/llm/types.ts`. -/
structure LLMResponse : Type where
  content : Json
  rawResponse : String
  usage : Usage
  model : String
  provider : LlmProvider
  latencyMs : ℤ

/-- One row written to `usage_analytics`. -/
structure AnalyticsEvent : Type where
  success : Bool
  error_message : Option String
  tokens_input : Option ℤ
  tokens_output : Option ℤ
  latency_ms : Option ℤ
  estimated_cost_cents : Option ℤ
  deriving DecidableEq

/-- The response a handler produces. -/
inductive HandlerResponse : Type where
  | errorJson (status : ℕ) (message : String) : HandlerResponse
  | payloadJson (api_payload : ApiPayload) (provider : LlmProvider)
      (endpoint_hint : Option String) : HandlerResponse
  | outputJson (output : Json) (tokens_input tokens_output latency_ms : ℤ)
      (estimated_cost_cents : ℤ) : HandlerResponse
  | uncaught (message : String) : HandlerResponse

/-- Everything observable about one handler execution: the HTTP response,
the analytics rows inserted, and whether the adapter `generate` and
`buildApiPayload` entry points were invoked. -/
structure HandlerOutcome : Type where
  response : HandlerResponse
  events : List AnalyticsEvent
  generateCalled : Bool
  buildPayloadCalled : Bool

/-- JavaScript field access `(body as Record).text`: only objects have
named enumerable fields. -/
def jsGetField (v : Json) (k : String) : Option Json :=
  match v with
  | Json.obj fs => fs.lookup k
  | _ => none

/-- Decryption step of both handlers: the API key is decrypted only when
both the ciphertext and the IV are (truthily) present. -/
def decryptedApiKey (llmKey : LlmKeyRecord) (decrypt : String → String → String) :
    Option String :=
  match optStrTruthy llmKey.encrypted_api_key, optStrTruthy llmKey.encryption_iv with
  | some enc, some iv => some (decrypt enc iv)
  | _, _ => none

/-- Input extraction (step 4) of the legacy `handleAIRequest`: query
parameters for GET, decoded body otherwise, and for `text_in` endpoint
kinds the body must carry a string `text` field. -/
def inputExtractLegacy (endpoint : EndpointRecord) (req : AIRequest) :
    Except HandlerResponse Json :=
  if req.method = "GET" then
    .ok (Json.obj (req.queryParams.map fun p => (p.1, Json.str p.2)))
  else
    match req.body with
    | none => .error (.errorJson 400 "Invalid request body")
    | some body =>
      if endpoint.endpoint_type = .text_in_structured_out
          ∨ endpoint.endpoint_type = .text_in_api_out then
        match jsGetField body "text" with
        | some (Json.str t) => .ok (Json.str t)
        | _ =>
          .error (.errorJson 400
            "Request body must have a \"text\" field for text input endpoints")
      else .ok body

/-- Embedding of the legacy `handleAIRequest` (the two-segment
`/:projectName/:endpointName` router): project, endpoint and key resolution
are abstracted into the already-resolved optional rows; `decrypt` embeds
the external decryption primitive; `generateResult` is the outcome the
provider network call would yield when it is reached; `failLatencyMs` is
the elapsed wall-clock time observed in the catch branch. -/
def handleAIRequestLegacy
    (projectFound : Bool)
    (endpointFound : Option EndpointRecord)
    (keyFound : Option LlmKeyRecord)
    (req : AIRequest)
    (decrypt : String → String → String)
    (generateResult : Except String LLMResponse)
    (failLatencyMs : ℤ) : HandlerOutcome :=
  if !projectFound then ⟨.errorJson 404 "Project not found", [], false, false⟩
  else match endpointFound with
  | none => ⟨.errorJson 404 "Endpoint not found", [], false, false⟩
  | some endpoint =>
    if endpoint.http_method ≠ req.method then
      ⟨.errorJson 405 ("Method " ++ req.method ++ " not allowed. Use " ++ endpoint.http_method),
       [], false, false⟩
    else match inputExtractLegacy endpoint req with
    | .error resp => ⟨resp, [], false, false⟩
    | .ok inputData =>
      match keyFound with
      | none => ⟨.errorJson 500 "LLM API key not found or inactive", [], false, false⟩
      | some llmKey =>
        let prompts := buildPrompts inputData (endpoint.output_schema.map schemaOfJsonFields)
          endpoint.description (isStructuredInput endpoint.endpoint_type)
        let llmRequest : LLMRequest :=
          { prompt := prompts.2
            systemPrompt := some prompts.1
            outputSchema := endpoint.output_schema.getD [("type", Json.str "object")]
            model := none
            temperature := none
            maxTokens := none }
        let config : ProviderConfig :=
          ⟨decryptedApiKey llmKey decrypt, llmKey.endpoint_url, none⟩
        if !callsLLM endpoint.endpoint_type then
          match createLLMProvider llmKey.provider config with
          | .error e =>
            ⟨.errorJson 500 ("Failed to build API payload: " ++ e), [], false, false⟩
          | .ok provider =>
            let endpointHint :=
              if llmKey.provider = .llm_server then llmKey.endpoint_url
              else some (PROVIDER_ENDPOINTS llmKey.provider)
            ⟨.payloadJson (provider.buildApiPayload llmRequest) llmKey.provider endpointHint,
             [], false, true⟩
        else
          match createLLMProvider llmKey.provider config with
          | .error e =>
            ⟨.errorJson 500 ("LLM processing failed: " ++ e),
             [⟨false, some e, none, none, some failLatencyMs, none⟩], false, false⟩
          | .ok _ =>
            match generateResult with
            | .ok r =>
              let costCents :=
                estimateCost r.model (r.usage.promptTokens : ℚ) (r.usage.completionTokens : ℚ)
              let costInt := jsRound (costCents * 100)
              ⟨.outputJson r.content r.usage.promptTokens r.usage.completionTokens
                 r.latencyMs costInt,
               [⟨true, none, some r.usage.promptTokens, some r.usage.completionTokens,
                 some r.latencyMs, some costInt⟩],
               true, false⟩
            | .error e =>
              ⟨.errorJson 500 ("LLM processing failed: " ++ e),
               [⟨false, some e, none, none, some failLatencyMs, none⟩],
               true, false⟩

/-- Embedding of the organization-path `handleAIRequest` of
`src/routes/ai.ts`: `validateAndGetContext` resolves organization, project,
endpoint, method and key, and extracts the input with no `text`-field
check; the handler then always takes the LLM path (there is no payload-only
branch), constructs the provider outside any try block (a construction
failure therefore escapes as an uncaught error with no analytics row), and
wraps only the `generate` call. -/
def handleAIRequestOrg
    (userFound projectFound : Bool)
    (endpointFound : Option EndpointRecord)
    (keyFound : Option LlmKeyRecord)
    (req : AIRequest)
    (decrypt : String → String → String)
    (generateResult : Except String LLMResponse)
    (failLatencyMs : ℤ) : HandlerOutcome :=
  if !userFound then ⟨.errorJson 404 "Organization not found", [], false, false⟩
  else if !projectFound then ⟨.errorJson 404 "Project not found", [], false, false⟩
  else match endpointFound with
  | none => ⟨.errorJson 404 "Endpoint not found", [], false, false⟩
  | some endpoint =>
    if endpoint.http_method ≠ req.method then
      ⟨.errorJson 405 ("Method " ++ req.method ++ " not allowed. Use " ++ endpoint.http_method),
       [], false, false⟩
    else
      let inputData? : Except HandlerResponse Json :=
        if req.method = "GET" then
          .ok (Json.obj (req.queryParams.map fun p => (p.1, Json.str p.2)))
        else match req.body with
          | none => .error (.errorJson 400 "Invalid request body")
          | some body => .ok body
      match inputData? with
      | .error resp => ⟨resp, [], false, false⟩
      | .ok inputData =>
        match keyFound with
        | none => ⟨.errorJson 500 "LLM API key not found or inactive", [], false, false⟩
        | some llmKey =>
          let promptInput : PromptInput :=
            { inputData := inputData
              outputSchema := endpoint.output_schema.map schemaOfJsonFields
              description := none
              context := endpoint.context
              provider := llmKey.provider }
          let prompts := buildLegacyPrompts promptInput
          let _llmRequest : LLMRequest :=
            { prompt := prompts.2
              systemPrompt := some prompts.1
              outputSchema := endpoint.output_schema.getD [("type", Json.str "object")]
              model := none
              temperature := none
              maxTokens := none }
          let config : ProviderConfig :=
            ⟨decryptedApiKey llmKey decrypt, llmKey.endpoint_url, none⟩
          match createLLMProvider llmKey.provider config with
          | .error e => ⟨.uncaught e, [], false, false⟩
          | .ok _ =>
            match generateResult with
            | .ok r =>
              let costCents :=
                estimateCost r.model (r.usage.promptTokens : ℚ) (r.usage.completionTokens : ℚ)
              let costInt := jsRound (costCents * 100)
              ⟨.outputJson r.content r.usage.promptTokens r.usage.completionTokens
                 r.latencyMs costInt,
               [⟨true, none, some r.usage.promptTokens, some r.usage.completionTokens,
                 some r.latencyMs, some costInt⟩],
               true, false⟩
            | .error e =>
              ⟨.errorJson 500 ("LLM processing failed: " ++ e),
               [⟨false, some e, none, none, some failLatencyMs, none⟩],
               true, false⟩

/-- Payload-only endpoint kinds (Type 3 and Type 4). -/
def isPayloadOnly (t : EndpointType) : Bool := !callsLLM t

mutual

/-- Structural size of a schema tree: one plus the sizes of the schemas
reachable through `properties` entries and `items` — exactly the positions
the renderer recursion descends into. -/
def JsonSchema.size : JsonSchema → ℕ
  | .mk _ props _ items _ _ _ _ _ _ _ _ _ =>
    1 + (match props with | some ps => sizeProps ps | none => 0)
      + (match items with | some it => it.size | none => 0)

/-- Total size of the property schemas of one `properties` mapping. -/
def sizeProps : List (String × JsonSchema) → ℕ
  | [] => 0
  | (_, p) :: rest => p.size + sizeProps rest

end

mutual

/-- Fuel-bounded transcription of the unbounded recursion of
`schemaToPromptInstructions` as written in the source: `none` means the
fuel was exhausted before the recursion bottomed out. -/
def instrFuel : ℕ → JsonSchema → ℕ → Option String
  | 0, _, _ => none
  | fuel + 1, schema, depth =>
    let indent := strRepeat "  " depth
    match schema with
    | .mk ty props req _ _ _ _ _ _ _ _ _ _ =>
      if ty.getD "object" = "object" then
        match props with
        | some propList =>
          (instrPropLinesFuel fuel propList (req.getD []) indent depth).map
            (String.intercalate "\n")
        | none => some (String.intercalate "\n" [])
      else some (String.intercalate "\n" [])

/-- Fuel-bounded transcription of the property loop of
`schemaToPromptInstructions`. -/
def instrPropLinesFuel : ℕ → List (String × JsonSchema) → List String → String → ℕ →
    Option (List String)
  | _, [], _, _, _ => some []
  | fuel,
    (propName,
     JsonSchema.mk pty pprops preq pitems penum pmin pmax pminl pmaxl ppat pfmt pdesc pdflt)
      :: rest, required, indent, depth =>
    (if pty.getD "any" == "object" && pprops.isSome then
      (instrFuel fuel
          (JsonSchema.mk pty pprops preq pitems penum pmin pmax pminl pmaxl ppat pfmt
            pdesc pdflt)
          (depth + 2)).map
        fun s => [indent ++ "  Properties:", s]
    else
      match pitems with
      | some its =>
        if pty.getD "any" == "array" then
          (instrFuel fuel its (depth + 2)).map
            fun s => [indent ++ "  (array of items, each item should have:)", s]
        else some []
      | none => some []).bind
      fun nestedLines =>
        (instrPropLinesFuel fuel rest required indent depth).map
          fun restLines =>
            (([indent ++ "- `" ++ propName ++ "` (" ++ pty.getD "any" ++ ") "
                 ++ (if required.contains propName then "(required)" else "(optional)")
                 ++ ": " ++ pdesc.getD ""]
              ++ (match penum with
                  | some es =>
                    [indent ++ "  Allowed values: "
                      ++ String.intercalate ", " (es.map (fun v => "\"" ++ jsToString v ++ "\""))]
                  | none => [])
              ++ (if extractConstraints
                      (JsonSchema.mk pty pprops preq pitems penum pmin pmax pminl pmaxl ppat
                        pfmt pdesc pdflt) = "" then []
                  else
                    [indent ++ "  Constraints: "
                      ++ extractConstraints
                        (JsonSchema.mk pty pprops preq pitems penum pmin pmax pminl pmaxl
                          ppat pfmt pdesc pdflt)])
              ++ nestedLines)
              ++ restLines)

end

mutual

/-- Fuel-bounded transcription of the unbounded recursion of
`generateSchemaExample` as written in the source. -/
def exampleFuel : ℕ → JsonSchema → Option Json
  | 0, _ => none
  | fuel + 1, schema =>
    match schema with
    | .mk ty props _ items en _ _ _ _ _ _ _ dflt =>
      let schemaType := ty.getD "object"
      match dflt with
      | some d => some d
      | none =>
        match en with
        | some (e :: _) => some e
        | _ =>
          match props, schemaType == "object" with
          | some ps, true => (examplePropFieldsFuel fuel ps).map Json.obj
          | _, _ =>
            if schemaType = "array" then
              match items with
              | some it => (exampleFuel fuel it).map fun j => Json.arr [j]
              | none => some (Json.arr [])
            else if schemaType = "string" then some (Json.str "<string>")
            else if schemaType = "number" then some (Json.num 0)
            else if schemaType = "integer" then some (Json.num 0)
            else if schemaType = "boolean" then some (Json.bool true)
            else some Json.null

/-- Fuel-bounded transcription of the property loop of
`generateSchemaExample`. -/
def examplePropFieldsFuel : ℕ → List (String × JsonSchema) → Option (List (String × Json))
  | _, [] => some []
  | fuel, (name, prop) :: rest =>
    match exampleFuel fuel prop, examplePropFieldsFuel fuel rest with
    | some v, some vs => some ((name, v) :: vs)
    | _, _ => none

end

/-- Sample schema: a bare string field. -/
def sampleStringSchema : JsonSchema :=
  JsonSchema.mk (some "string") none none none none none none none none none none none none

/-- Sample output schema with a nested object property, hence complex. -/
def sampleComplexSchema : JsonSchema :=
  JsonSchema.mk (some "object")
    (some [("name", sampleStringSchema),
           ("address", JsonSchema.mk (some "object")
             (some [("city", sampleStringSchema)]) none none none none none none none
             none none none none)])
    (some ["name"]) none none none none none none none none none none

/-- Sample prompt input carrying the complex schema. -/
def samplePromptInput : PromptInput :=
  { inputData := Json.obj [("city", Json.str "Paris")]
    outputSchema := some sampleComplexSchema
    description := some "Extract info"
    context := none
    provider := LlmProvider.openai }

/-- Sample prompt input whose input data is a JSON array. -/
def c3ArrayInput : PromptInput :=
  { inputData := Json.arr [Json.num 1, Json.num 2]
    outputSchema := none
    description := none
    context := none
    provider := LlmProvider.openai }

/-- Sample prompt input whose input data is raw text. -/
def c3TextInput : PromptInput :=
  { inputData := Json.str "hello"
    outputSchema := none
    description := none
    context := none
    provider := LlmProvider.anthropic }

/-- Sample endpoint row of the text-input/structured-output kind. -/
def sampleTextEndpoint : EndpointRecord :=
  { endpoint_type := .text_in_structured_out
    http_method := "POST"
    output_schema := none
    description := none
    instructions := none
    context := none }

/-- Sample endpoint row of the structured-input/payload-only kind. -/
def samplePayloadEndpoint : EndpointRecord :=
  { endpoint_type := .structured_in_api_out
    http_method := "POST"
    output_schema := none
    description := none
    instructions := none
    context := none }

/-- Sample endpoint row of the structured-input/structured-output kind. -/
def sampleLLMEndpoint : EndpointRecord :=
  { endpoint_type := .structured_in_structured_out
    http_method := "POST"
    output_schema := none
    description := none
    instructions := none
    context := none }

/-- Sample key row bound to the Anthropic provider. -/
def sampleKey : LlmKeyRecord :=
  { provider := .anthropic
    encrypted_api_key := some "enc"
    encryption_iv := some "iv"
    endpoint_url := none }

/-- Sample decryption primitive. -/
def sampleDecrypt : String → String → String := fun _ _ => "sk-decrypted"

/-- Sample POST request whose body is an empty JSON object (no text key). -/
def sampleRequestNoText : AIRequest :=
  { method := "POST"
    body := some (Json.obj [])
    queryParams := [] }

/-- Modelled from the words of the specification of the input formatter:
a JSON object renders as a flat bullet list `- key: value` with one extra
indent level for nested object-valued keys, and arrays and scalars render
via JSON serialization inline. -/
def formatStructuredInputSpec (data : List (String × Json)) : String :=
  String.intercalate "\n"
    (data.flatMap fun kv =>
      match kv.2 with
      | Json.obj nested =>
        ("- " ++ kv.1 ++ ":")
          :: nested.map fun kv2 => "    - " ++ kv2.1 ++ ": " ++ jsonStringify kv2.2
      | v => ["- " ++ kv.1 ++ ": " ++ jsonStringify v])

end Shapeshyft

namespace Shapeshyft

/-- Counterexample for C1: the claim asserts
`estimate("gpt-4o-mini", 1_000_000, 0) === 0.15`, but the code returns 15
(the table stores cents per million tokens, so one million input tokens at
15 cents per million cost 15 cents, not 0.15). -/
theorem c1_counterexample :
    estimateCost "gpt-4o-mini" 1000000 0 = 15 ∧
    (15 : ℚ) ≠ 15/100 := by
  constructor
  · show (jsRound ((1000000 / 1000000 * 15 + 0 / 1000000 * 60) * 100) : ℚ) / 100 = 15
    norm_num [jsRound]
  · norm_num

/-- C1 (amended): `estimateCost` agrees with the spec formula (exact-match
table lookup with default fallback, linear per-million-token pricing,
rounded to 2 decimals) for all models and token counts; in particular
`estimateCost "gpt-4o-mini" 1_000_000 0 = 15` and
`estimateCost "unknown-model-xyz" 1_000_000 1_000_000 = 400`. -/
theorem c1_estimateCost_correct :
    (∀ (m : String) (inputTokens outputTokens : ℚ),
      estimateCost m inputTokens outputTokens = estimateCostSpec m inputTokens outputTokens) ∧
    estimateCost "gpt-4o-mini" 1000000 0 = 15 ∧
    estimateCost "unknown-model-xyz" 1000000 1000000 = 400 := by
  refine ⟨fun m i o => ?_, ?_, ?_⟩
  · unfold estimateCost estimateCostSpec
    cases h : costPerMillionTokens m <;> simp [h, Option.getD, defaultCostEntry]
  · show (jsRound ((1000000 / 1000000 * 15 + 0 / 1000000 * 60) * 100) : ℚ) / 100 = 15
    norm_num [jsRound]
  · show (jsRound ((1000000 / 1000000 * 100 + 1000000 / 1000000 * 300) * 100) : ℚ) / 100 = 400
    norm_num [jsRound]

/-- The schema size is positive. -/
theorem JsonSchema.size_pos (s : JsonSchema) : 1 ≤ JsonSchema.size s := by
  cases s with
  | mk ty props req items en mn mx mnl mxl pa fm ds df =>
    cases props <;> cases items <;> simp [JsonSchema.size] <;> omega

/-- Fuel completeness of the example generator: with fuel at least the
schema size, the fuel-bounded transcription of the source recursion
terminates and agrees with the total function. -/
theorem exampleFuel_sound (fuel : ℕ) :
    (∀ s : JsonSchema, JsonSchema.size s ≤ fuel →
      exampleFuel fuel s = some (generateSchemaExample s)) ∧
    (∀ ps : List (String × JsonSchema), sizeProps ps ≤ fuel →
      examplePropFieldsFuel fuel ps = some (examplePropFields ps)) := by
  induction fuel with
  | zero =>
    constructor
    · intro s hs
      exact absurd hs (by have := JsonSchema.size_pos s; omega)
    · intro ps hps
      cases ps with
      | nil => simp [examplePropFieldsFuel, examplePropFields]
      | cons hd tl =>
        exfalso
        obtain ⟨n, p⟩ := hd
        have := JsonSchema.size_pos p
        simp [sizeProps] at hps
        omega
  | succ f ih =>
    have hP : ∀ s : JsonSchema, JsonSchema.size s ≤ f + 1 →
        exampleFuel (f + 1) s = some (generateSchemaExample s) := by
      intro s hs
      cases s with
      | mk ty props req items en mn mx mnl mxl pa fm ds df =>
        have hprops : ∀ ps, props = some ps → sizeProps ps ≤ f := by
          intro ps hps
          subst hps
          cases items with
          | none => simp [JsonSchema.size] at hs; omega
          | some it => simp [JsonSchema.size] at hs; omega
        have hitems : ∀ it, items = some it → JsonSchema.size it ≤ f := by
          intro it hit
          subst hit
          cases props with
          | none => simp [JsonSchema.size] at hs; omega
          | some ps => simp [JsonSchema.size] at hs; omega
        cases df with
        | some d => simp [exampleFuel, generateSchemaExample]
        | none =>
          cases en with
          | some l =>
            cases l with
            | nil =>
              cases props with
              | some ps =>
                cases hb : (ty.getD "object" == "object") with
                | true =>
                  simp [exampleFuel, generateSchemaExample, hb, ih.2 ps (hprops ps rfl)]
                | false =>
                  cases items with
                  | some it =>
                    simp [exampleFuel, generateSchemaExample, hb, ih.1 it (hitems it rfl)]
                    <;> split_ifs <;> rfl
                      <;> split_ifs <;> rfl
                  | none =>
                    simp [exampleFuel, generateSchemaExample, hb] <;> split_ifs <;> rfl
              | none =>
                cases items with
                | some it =>
                  simp [exampleFuel, generateSchemaExample, ih.1 it (hitems it rfl)]
                    <;> split_ifs <;> rfl
                | none => simp [exampleFuel, generateSchemaExample] <;> split_ifs <;> rfl
            | cons e es => simp [exampleFuel, generateSchemaExample]
          | none =>
            cases props with
            | some ps =>
              cases hb : (ty.getD "object" == "object") with
              | true =>
                simp [exampleFuel, generateSchemaExample, hb, ih.2 ps (hprops ps rfl)]
              | false =>
                cases items with
                | some it =>
                  simp [exampleFuel, generateSchemaExample, hb, ih.1 it (hitems it rfl)]
                    <;> split_ifs <;> rfl
                | none =>
                  simp [exampleFuel, generateSchemaExample, hb] <;> split_ifs <;> rfl
            | none =>
              cases items with
              | some it =>
                simp [exampleFuel, generateSchemaExample, ih.1 it (hitems it rfl)]
                  <;> split_ifs <;> rfl
              | none => simp [exampleFuel, generateSchemaExample] <;> split_ifs <;> rfl
    refine ⟨hP, ?_⟩
    intro ps hps
    induction ps with
    | nil => simp [examplePropFieldsFuel, examplePropFields]
    | cons hd tl ihl =>
      obtain ⟨n, p⟩ := hd
      have h1 : JsonSchema.size p ≤ f + 1 := by
        simp [sizeProps] at hps
        omega
      have h2 : sizeProps tl ≤ f + 1 := by
        have := JsonSchema.size_pos p
        simp [sizeProps] at hps
        omega
      simp [examplePropFieldsFuel, examplePropFields, hP p h1, ihl h2]

/-- An `items` schema is strictly smaller than its parent. -/
theorem size_items_lt (ty : Option String) (props : Option (List (String × JsonSchema)))
    (req : Option (List String)) (it : JsonSchema) (en : Option (List Json))
    (mn mx mnl mxl : Option ℤ) (pa fm ds : Option String) (df : Option Json) :
    JsonSchema.size it <
      JsonSchema.size (JsonSchema.mk ty props req (some it) en mn mx mnl mxl pa fm ds df) := by
  cases props <;> simp [JsonSchema.size] <;> omega

/-- Fuel completeness of the schema instruction renderer: with fuel at
least the schema size, the fuel-bounded transcription of the source
recursion terminates and agrees with the total function. -/
theorem instrFuel_sound (fuel : ℕ) :
    (∀ (s : JsonSchema) (depth : ℕ), JsonSchema.size s ≤ fuel →
      instrFuel fuel s depth = some (schemaToPromptInstructions s depth)) ∧
    (∀ (ps : List (String × JsonSchema)) (required : List String) (indent : String)
      (depth : ℕ), sizeProps ps ≤ fuel →
      instrPropLinesFuel fuel ps required indent depth =
        some (instrPropLines ps required indent depth)) := by
  induction fuel with
  | zero =>
    constructor
    · intro s depth hs
      exact absurd hs (by have := JsonSchema.size_pos s; omega)
    · intro ps required indent depth hps
      cases ps with
      | nil => simp [instrPropLinesFuel, instrPropLines]
      | cons hd tl =>
        exfalso
        obtain ⟨n, p⟩ := hd
        have := JsonSchema.size_pos p
        simp [sizeProps] at hps
        omega
  | succ f ih =>
    have hP : ∀ (s : JsonSchema) (depth : ℕ), JsonSchema.size s ≤ f + 1 →
        instrFuel (f + 1) s depth = some (schemaToPromptInstructions s depth) := by
      intro s depth hs
      cases s with
      | mk ty props req items en mn mx mnl mxl pa fm ds df =>
        cases props with
        | some ps =>
          have hpse : sizeProps ps ≤ f := by
            cases items with
            | none => simp [JsonSchema.size] at hs; omega
            | some it => simp [JsonSchema.size] at hs; omega
          have hq := ih.2 ps (req.getD []) (strRepeat "  " depth) depth hpse
          by_cases hob : ty.getD "object" = "object"
          · simp [instrFuel, schemaToPromptInstructions, hob, hq]
          · simp [instrFuel, schemaToPromptInstructions, hob]
        | none =>
          by_cases hob : ty.getD "object" = "object"
          · simp [instrFuel, schemaToPromptInstructions, hob]
          · simp [instrFuel, schemaToPromptInstructions, hob]
    refine ⟨hP, ?_⟩
    intro ps required indent depth hps
    induction ps with
    | nil => simp [instrPropLinesFuel, instrPropLines]
    | cons hd tl ihl =>
      obtain ⟨n, p⟩ := hd
      have hsp : JsonSchema.size p ≤ f + 1 := by
        simp [sizeProps] at hps
        omega
      have htl : sizeProps tl ≤ f + 1 := by
        have := JsonSchema.size_pos p
        simp [sizeProps] at hps
        omega
      cases p with
      | mk pty pprops preq pitems penum pmin pmax pminl pmaxl ppat pfmt pdesc pdflt =>
        have h2 := ihl htl
        cases pitems with
        | some its =>
          have hits : JsonSchema.size its ≤ f + 1 := by
            have := size_items_lt pty pprops preq its penum pmin pmax pminl pmaxl ppat
              pfmt pdesc pdflt
            omega
          cases hob : (pty.getD "any" == "object" && pprops.isSome) with
          | true =>
            have h1 := hP
              (JsonSchema.mk pty pprops preq (some its) penum pmin pmax pminl pmaxl ppat
                pfmt pdesc pdflt)
              (depth + 2) hsp
            simp [instrPropLinesFuel, instrPropLines, hob, h1, h2]
          | false =>
            cases har : (pty.getD "any" == "array") with
            | true =>
              have h1 := hP its (depth + 2) hits
              simp [instrPropLinesFuel, instrPropLines, hob, har, h1, h2]
            | false => simp [instrPropLinesFuel, instrPropLines, hob, har, h2]
        | none =>
          cases hob : (pty.getD "any" == "object" && pprops.isSome) with
          | true =>
            have h1 := hP
              (JsonSchema.mk pty pprops preq none penum pmin pmax pminl pmaxl ppat pfmt
                pdesc pdflt)
              (depth + 2) hsp
            simp [instrPropLinesFuel, instrPropLines, hob, h1, h2]
          | false => simp [instrPropLinesFuel, instrPropLines, hob, h2]

/-- C10: the renderer recursions of `schemaToPromptInstructions` and
`generateSchemaExample` terminate on every finite tree-shaped schema — the
fuel-bounded transcriptions of the unbounded source recursions, run with
fuel equal to the schema size, never exhaust their fuel and compute exactly
the total rendering functions, for any combination of present or absent
optional keywords. -/
theorem c10_renderer_total (s : JsonSchema) :
    (∀ depth : ℕ, instrFuel (JsonSchema.size s) s depth
      = some (schemaToPromptInstructions s depth)) ∧
    exampleFuel (JsonSchema.size s) s = some (generateSchemaExample s) :=
  ⟨fun depth => (instrFuel_sound (JsonSchema.size s)).1 s depth le_rfl,
   (exampleFuel_sound (JsonSchema.size s)).1 s le_rfl⟩

/-- C2: for every prompt input with an output schema, the combined prompt
of `ApiHelper.prompt` and the legacy system prompt of `buildSystemPrompt`
contain byte-identical schema-instruction blocks and byte-identical example
blocks as dedicated sections, the example section being present in both
exactly when `isComplexSchema` holds (only the section headings differ
between the two forms). -/
theorem c2_prompt_blocks_consistent (input : PromptInput) (s : JsonSchema)
    (h : input.outputSchema = some s) :
    ∃ preA postA preL postL,
      apiHelperPromptParts input =
        preA ++ (["\n## Required Output Fields\n" ++ instructionBlock s]
          ++ (if isComplexSchema s then
                ["\n## Example Output\n" ++ exampleCodeBlock s]
              else []))
          ++ postA ∧
      buildSystemPromptParts input.description input.outputSchema =
        preL ++ (["\n## Output Structure\n" ++ instructionBlock s]
          ++ (if isComplexSchema s then
                ["\n## Example Output Structure\n" ++ exampleCodeBlock s]
              else []))
          ++ postL := by
  have hx1 : "\n## Required Output Fields\nYour response must include the following fields:\n"
      ++ schemaToPromptInstructions s 0
      = "\n## Required Output Fields\n" ++ instructionBlock s := by
    rw [instructionBlock, ← String.append_assoc]
    rfl
  have hx2 : "\n## Example Output\n```json\n"
      ++ jsonStringifyIndent "" (generateSchemaExample s) ++ "\n```"
      = "\n## Example Output\n" ++ exampleCodeBlock s := by
    rw [exampleCodeBlock, ← String.append_assoc, ← String.append_assoc]
    rfl
  have hx3 : "\n## Output Structure\nYour response must include the following fields:\n"
      ++ schemaToPromptInstructions s 0
      = "\n## Output Structure\n" ++ instructionBlock s := by
    rw [instructionBlock, ← String.append_assoc]
    rfl
  have hx4 : "\n## Example Output Structure\n```json\n"
      ++ jsonStringifyIndent "" (generateSchemaExample s) ++ "\n```"
      = "\n## Example Output Structure\n" ++ exampleCodeBlock s := by
    rw [exampleCodeBlock, ← String.append_assoc, ← String.append_assoc]
    rfl
  refine ⟨(if getProviderNotes input.provider = "" then []
        else ["<!-- " ++ getProviderNotes input.provider ++ " -->\n"])
      ++ ["# Instructions\n",
          "You are a helpful assistant that produces structured data output."]
      ++ (match input.description with
          | some d => if d = "" then [] else ["\n## Task\n" ++ d]
          | none => [])
      ++ (match input.context with
          | some ctx => if ctx = "" then [] else ["\n## Context\n" ++ ctx]
          | none => []),
    ["\n## Response Format\nRespond with valid JSON only. Do not include any text outside the JSON object."]
      ++ ["\n---\n", "# Input\n"]
      ++ (if isJsObjectNonNull input.inputData then
            ["Process the following data:\n",
             formatStructuredInput (jsEntries input.inputData)]
          else
            ["Process the following data:\n", jsonStringify input.inputData]),
    ["You are a helpful assistant that produces structured data output."]
      ++ (match input.description with
          | some d => if d = "" then [] else ["\n## Task Description\n" ++ d]
          | none => []),
    ["\n## Response Format\nRespond with valid JSON only. Do not include any text outside the JSON object."],
    ?_, ?_⟩
  · simp only [apiHelperPromptParts, h]
    rw [hx1, hx2]
    simp [List.append_assoc]
  · simp only [buildSystemPromptParts, h]
    try rw [hx3, hx4]
    try simp [List.append_assoc]

/-- Witness for C2 at a concrete complex-schema prompt input. -/
theorem c2_prompt_blocks_consistent_witness :
    samplePromptInput.outputSchema = some sampleComplexSchema ∧
    (∃ preA postA preL postL,
      apiHelperPromptParts samplePromptInput =
        preA ++ (["\n## Required Output Fields\n" ++ instructionBlock sampleComplexSchema]
          ++ (if isComplexSchema sampleComplexSchema then
                ["\n## Example Output\n" ++ exampleCodeBlock sampleComplexSchema]
              else []))
          ++ postA ∧
      buildSystemPromptParts samplePromptInput.description samplePromptInput.outputSchema =
        preL ++ (["\n## Output Structure\n" ++ instructionBlock sampleComplexSchema]
          ++ (if isComplexSchema sampleComplexSchema then
                ["\n## Example Output Structure\n" ++ exampleCodeBlock sampleComplexSchema]
              else []))
          ++ postL) :=
  ⟨rfl, c2_prompt_blocks_consistent samplePromptInput sampleComplexSchema rfl⟩

/-- The loop of `formatStructuredInput` is the bullet-list rendering the
specification describes, property by property. -/
theorem formatLines_eq_flatMap (data : List (String × Json)) :
    formatLines data = data.flatMap fun kv =>
      match kv.2 with
      | Json.obj nested =>
        ("- " ++ kv.1 ++ ":")
          :: nested.map fun kv2 => "    - " ++ kv2.1 ++ ": " ++ jsonStringify kv2.2
      | v => ["- " ++ kv.1 ++ ": " ++ jsonStringify v] := by
  induction data with
  | nil => simp [formatLines]
  | cons hd tl ih =>
    obtain ⟨k, v⟩ := hd
    cases v <;> simp [formatLines, ih]

/-- Counterexample for C3: the claim says an array input is serialized
directly, but `ApiHelper.prompt` bullet-formats the array `[1, 2]` through
its index keys (JavaScript `typeof [] === "object"`), so the Input section
ends with the bullet list and not with the direct serialization. -/
theorem c3_counterexample :
    (apiHelperPromptParts c3ArrayInput).getLast? = some ("- 0: 1" ++ "\n" ++ "- 1: 2") ∧
    ("- 0: 1" ++ "\n" ++ "- 1: 2" : String)
      ≠ jsonStringify (Json.arr [Json.num 1, Json.num 2]) := by
  constructor
  · rfl
  · decide

/-- C3 (amended): for a JSON-object input the Input section renders the
flat bullet list the specification describes (one extra indent for nested
object-valued keys, arrays and scalars inline via JSON serialization);
primitive inputs (text, numbers, booleans, null) are serialized directly;
but an array input is also bullet-formatted, through its index keys, rather
than serialized directly. -/
theorem c3_input_formatting :
    (∀ data : List (String × Json), formatStructuredInput data = formatStructuredInputSpec data)
    ∧ (∀ input : PromptInput, isJsObjectNonNull input.inputData = false →
        ∃ pre, apiHelperPromptParts input =
          pre ++ ["Process the following data:\n", jsonStringify input.inputData])
    ∧ (∀ (input : PromptInput) (fs : List (String × Json)), input.inputData = Json.obj fs →
        ∃ pre, apiHelperPromptParts input =
          pre ++ ["Process the following data:\n", formatStructuredInput fs])
    ∧ (∀ (input : PromptInput) (xs : List Json), input.inputData = Json.arr xs →
        ∃ pre, apiHelperPromptParts input =
          pre ++ ["Process the following data:\n",
            formatStructuredInput (xs.enum.map fun p => (toString p.1, p.2))]) := by
  refine ⟨?_, ?_, ?_, ?_⟩
  · intro data
    rw [formatStructuredInput, formatStructuredInputSpec, formatLines_eq_flatMap]
  · intro input hflat
    refine ⟨(if getProviderNotes input.provider = "" then []
          else ["<!-- " ++ getProviderNotes input.provider ++ " -->\n"])
        ++ ["# Instructions\n",
            "You are a helpful assistant that produces structured data output."]
        ++ (match input.description with
            | some d => if d = "" then [] else ["\n## Task\n" ++ d]
            | none => [])
        ++ (match input.context with
            | some ctx => if ctx = "" then [] else ["\n## Context\n" ++ ctx]
            | none => [])
        ++ (match input.outputSchema with
            | some schema =>
              ["\n## Required Output Fields\nYour response must include the following fields:\n"
                 ++ schemaToPromptInstructions schema 0]
              ++ (if isComplexSchema schema then
                    ["\n## Example Output\n```json\n"
                       ++ jsonStringifyIndent "" (generateSchemaExample schema) ++ "\n```"]
                  else [])
            | none => [])
        ++ ["\n## Response Format\nRespond with valid JSON only. Do not include any text outside the JSON object."]
        ++ ["\n---\n", "# Input\n"], ?_⟩
    simp only [apiHelperPromptParts, hflat]
    simp [List.append_assoc]
  · intro input fs hobj
    refine ⟨(if getProviderNotes input.provider = "" then []
          else ["<!-- " ++ getProviderNotes input.provider ++ " -->\n"])
        ++ ["# Instructions\n",
            "You are a helpful assistant that produces structured data output."]
        ++ (match input.description with
            | some d => if d = "" then [] else ["\n## Task\n" ++ d]
            | none => [])
        ++ (match input.context with
            | some ctx => if ctx = "" then [] else ["\n## Context\n" ++ ctx]
            | none => [])
        ++ (match input.outputSchema with
            | some schema =>
              ["\n## Required Output Fields\nYour response must include the following fields:\n"
                 ++ schemaToPromptInstructions schema 0]
              ++ (if isComplexSchema schema then
                    ["\n## Example Output\n```json\n"
                       ++ jsonStringifyIndent "" (generateSchemaExample schema) ++ "\n```"]
                  else [])
            | none => [])
        ++ ["\n## Response Format\nRespond with valid JSON only. Do not include any text outside the JSON object."]
        ++ ["\n---\n", "# Input\n"], ?_⟩
    simp only [apiHelperPromptParts, hobj]
    simp [isJsObjectNonNull, jsEntries, List.append_assoc]
  · intro input xs harr
    refine ⟨(if getProviderNotes input.provider = "" then []
          else ["<!-- " ++ getProviderNotes input.provider ++ " -->\n"])
        ++ ["# Instructions\n",
            "You are a helpful assistant that produces structured data output."]
        ++ (match input.description with
            | some d => if d = "" then [] else ["\n## Task\n" ++ d]
            | none => [])
        ++ (match input.context with
            | some ctx => if ctx = "" then [] else ["\n## Context\n" ++ ctx]
            | none => [])
        ++ (match input.outputSchema with
            | some schema =>
              ["\n## Required Output Fields\nYour response must include the following fields:\n"
                 ++ schemaToPromptInstructions schema 0]
              ++ (if isComplexSchema schema then
                    ["\n## Example Output\n```json\n"
                       ++ jsonStringifyIndent "" (generateSchemaExample schema) ++ "\n```"]
                  else [])
            | none => [])
        ++ ["\n## Response Format\nRespond with valid JSON only. Do not include any text outside the JSON object."]
        ++ ["\n---\n", "# Input\n"], ?_⟩
    simp only [apiHelperPromptParts, harr]
    simp [isJsObjectNonNull, jsEntries, List.append_assoc]

/-- Witness for C3 at concrete text, object and array inputs. -/
theorem c3_input_formatting_witness :
    (isJsObjectNonNull c3TextInput.inputData = false ∧
      ∃ pre, apiHelperPromptParts c3TextInput =
        pre ++ ["Process the following data:\n", jsonStringify c3TextInput.inputData]) ∧
    (samplePromptInput.inputData = Json.obj [("city", Json.str "Paris")] ∧
      ∃ pre, apiHelperPromptParts samplePromptInput =
        pre ++ ["Process the following data:\n",
          formatStructuredInput [("city", Json.str "Paris")]]) ∧
    (c3ArrayInput.inputData = Json.arr [Json.num 1, Json.num 2] ∧
      ∃ pre, apiHelperPromptParts c3ArrayInput =
        pre ++ ["Process the following data:\n",
          formatStructuredInput
            (([Json.num 1, Json.num 2] : List Json).enum.map fun p => (toString p.1, p.2))]) :=
  ⟨⟨rfl, c3_input_formatting.2.1 c3TextInput rfl⟩,
   ⟨rfl, c3_input_formatting.2.2.1 samplePromptInput [("city", Json.str "Paris")] rfl⟩,
   ⟨rfl, c3_input_formatting.2.2.2 c3ArrayInput [Json.num 1, Json.num 2] rfl⟩⟩

/-- Counterexample for C4: the Gemini adapter, given usage metadata that
reports 5 prompt and 7 candidate tokens but no total, resolves the total to
0 — not to the sum 12 the claim requires when the provider does not
separately report a total. -/
theorem c4_counterexample :
    GeminiProvider.resolveUsage (some ⟨some 5, some 7, none⟩) = ⟨5, 7, 0⟩ ∧
    (0 : ℤ) ≠ 5 + 7 :=
  ⟨rfl, by decide⟩

/-- C4 (amended): only the custom-server adapter resolves usage counts with
the either-naming / zero-default / sum-fallback rule of the claim; the
Anthropic adapter always computes its total as the sum of the two counts it
reads; the OpenAI adapter reads only the `prompt_tokens` spelling (an
`input_tokens`-style record resolves to all zeros); and the Gemini adapter
reads its own metadata field names with an absent total defaulting to 0. -/
theorem c4_usage_resolution :
    (∀ u : Option RawUsage, CustomLLMProvider.extractUsage u = resolveUsageSpec u) ∧
    (∀ i o : ℤ, (AnthropicProvider.resolveUsage i o).totalTokens =
      (AnthropicProvider.resolveUsage i o).promptTokens
        + (AnthropicProvider.resolveUsage i o).completionTokens) ∧
    (∀ p c : ℤ, OpenAIProvider.resolveUsage
        (some ⟨none, none, some p, some c, none⟩) = ⟨0, 0, 0⟩) ∧
    (∀ p c : ℤ, GeminiProvider.resolveUsage (some ⟨some p, some c, none⟩) = ⟨p, c, 0⟩) := by
  refine ⟨fun u => ?_, fun i o => rfl, fun p c => rfl, fun p c => rfl⟩
  cases u <;> rfl

/-- C8: each hosted-provider constructor fails immediately on a config with
no API key and the custom-server constructor fails immediately on a config
with no endpoint URL; conversely any successfully constructed adapter
carries the (non-empty) credential from its config, so `generate` can never
be entered with the credential absent. -/
theorem c8_construction_credentials :
    (∀ cfg : ProviderConfig, cfg.apiKey = none →
      OpenAIProvider.construct cfg = .error "OpenAI API key is required" ∧
      AnthropicProvider.construct cfg = .error "Anthropic API key is required" ∧
      GeminiProvider.construct cfg = .error "Gemini API key is required") ∧
    (∀ cfg : ProviderConfig, cfg.endpointUrl = none →
      CustomLLMProvider.construct cfg = .error "LLM Server endpoint URL is required") ∧
    (∀ (cfg : ProviderConfig) (p : OpenAIProvider),
      OpenAIProvider.construct cfg = .ok p → cfg.apiKey = some p.apiKey ∧ p.apiKey ≠ "") ∧
    (∀ (cfg : ProviderConfig) (p : AnthropicProvider),
      AnthropicProvider.construct cfg = .ok p → cfg.apiKey = some p.apiKey ∧ p.apiKey ≠ "") ∧
    (∀ (cfg : ProviderConfig) (p : GeminiProvider),
      GeminiProvider.construct cfg = .ok p → cfg.apiKey = some p.apiKey ∧ p.apiKey ≠ "") ∧
    (∀ (cfg : ProviderConfig) (p : CustomLLMProvider),
      CustomLLMProvider.construct cfg = .ok p →
        cfg.endpointUrl = some p.endpointUrl ∧ p.endpointUrl ≠ "") := by
  refine ⟨?_, ?_, ?_, ?_, ?_, ?_⟩
  · intro cfg h
    refine ⟨?_, ?_, ?_⟩ <;>
      simp [OpenAIProvider.construct, AnthropicProvider.construct, GeminiProvider.construct, h]
  · intro cfg h
    simp [CustomLLMProvider.construct, h]
  · intro cfg p h
    cases hc : cfg.apiKey with
    | none => simp [OpenAIProvider.construct, hc] at h
    | some k =>
      by_cases hk : k = ""
      · simp [OpenAIProvider.construct, hc, hk] at h
      · simp only [OpenAIProvider.construct, hc, hk, if_false, Except.ok.injEq] at h
        subst h
        exact ⟨rfl, hk⟩
  · intro cfg p h
    cases hc : cfg.apiKey with
    | none => simp [AnthropicProvider.construct, hc] at h
    | some k =>
      by_cases hk : k = ""
      · simp [AnthropicProvider.construct, hc, hk] at h
      · simp only [AnthropicProvider.construct, hc, hk, if_false, Except.ok.injEq] at h
        subst h
        exact ⟨rfl, hk⟩
  · intro cfg p h
    cases hc : cfg.apiKey with
    | none => simp [GeminiProvider.construct, hc] at h
    | some k =>
      by_cases hk : k = ""
      · simp [GeminiProvider.construct, hc, hk] at h
      · simp only [GeminiProvider.construct, hc, hk, if_false, Except.ok.injEq] at h
        subst h
        exact ⟨rfl, hk⟩
  · intro cfg p h
    cases hc : cfg.endpointUrl with
    | none => simp [CustomLLMProvider.construct, hc] at h
    | some u =>
      by_cases hu : u = ""
      · simp [CustomLLMProvider.construct, hc, hu] at h
      · simp only [CustomLLMProvider.construct, hc, hu, if_false, Except.ok.injEq] at h
        subst h
        exact ⟨rfl, hu⟩

/-- Witness for C8 at concrete configurations. -/
theorem c8_construction_credentials_witness :
    ((⟨none, none, none⟩ : ProviderConfig).apiKey = none ∧
      OpenAIProvider.construct ⟨none, none, none⟩ = .error "OpenAI API key is required" ∧
      AnthropicProvider.construct ⟨none, none, none⟩
        = .error "Anthropic API key is required" ∧
      GeminiProvider.construct ⟨none, none, none⟩ = .error "Gemini API key is required") ∧
    ((⟨none, none, none⟩ : ProviderConfig).endpointUrl = none ∧
      CustomLLMProvider.construct ⟨none, none, none⟩
        = .error "LLM Server endpoint URL is required") ∧
    (OpenAIProvider.construct ⟨some "sk-test", none, none⟩
        = .ok ⟨"sk-test", "gpt-4o-mini"⟩ ∧
      (⟨some "sk-test", none, none⟩ : ProviderConfig).apiKey
        = some (OpenAIProvider.apiKey ⟨"sk-test", "gpt-4o-mini"⟩) ∧
      OpenAIProvider.apiKey ⟨"sk-test", "gpt-4o-mini"⟩ ≠ "") ∧
    (CustomLLMProvider.construct ⟨none, some "http://h", none⟩
        = .ok ⟨"http://h", 120000⟩ ∧
      (⟨none, some "http://h", none⟩ : ProviderConfig).endpointUrl
        = some (CustomLLMProvider.endpointUrl ⟨"http://h", 120000⟩) ∧
      CustomLLMProvider.endpointUrl ⟨"http://h", 120000⟩ ≠ "") :=
  ⟨⟨rfl, c8_construction_credentials.1 ⟨none, none, none⟩ rfl⟩,
   ⟨rfl, c8_construction_credentials.2.1 ⟨none, none, none⟩ rfl⟩,
   ⟨rfl, c8_construction_credentials.2.2.1 ⟨some "sk-test", none, none⟩
      ⟨"sk-test", "gpt-4o-mini"⟩ rfl⟩,
   ⟨rfl, c8_construction_credentials.2.2.2.2.2 ⟨none, some "http://h", none⟩
      ⟨"http://h", 120000⟩ rfl⟩⟩

/-- A banned key looks up to nothing after the Gemini keyword filter. -/
theorem lookup_filter_banned (k : String) (hk : k ∈ geminiUnsupportedKeywords)
    (tl : List (String × Json)) :
    (tl.filter fun p => decide (p.1 ∉ geminiUnsupportedKeywords)).lookup k = none := by
  induction tl with
  | nil => rfl
  | cons hd tl ih =>
    obtain ⟨a, v⟩ := hd
    by_cases ha : a ∈ geminiUnsupportedKeywords
    · rw [List.filter_cons, if_neg (by simp [ha])]
      exact ih
    · rw [List.filter_cons, if_pos (by simp [ha])]
      have hbeq : (k == a) = false := beq_eq_false_iff_ne.mpr (fun he => ha (he ▸ hk))
      simp only [List.lookup, hbeq]
      exact ih

/-- A key outside the banned list looks up unchanged after the Gemini
keyword filter. -/
theorem lookup_filter_keep (k : String) (hk : k ∉ geminiUnsupportedKeywords)
    (tl : List (String × Json)) :
    (tl.filter fun p => decide (p.1 ∉ geminiUnsupportedKeywords)).lookup k = tl.lookup k := by
  induction tl with
  | nil => rfl
  | cons hd tl ih =>
    obtain ⟨a, v⟩ := hd
    by_cases ha : a ∈ geminiUnsupportedKeywords
    · rw [List.filter_cons, if_neg (by simp [ha])]
      have hbeq : (k == a) = false := beq_eq_false_iff_ne.mpr (fun he => hk (he ▸ ha))
      simp only [List.lookup, hbeq]
      exact ih
    · rw [List.filter_cons, if_pos (by simp [ha])]
      by_cases hka : k = a
      · subst hka
        simp [List.lookup]
      · have hbeq : (k == a) = false := beq_eq_false_iff_ne.mpr hka
        simp only [List.lookup, hbeq]
        exact ih

/-- C9: the schema placed by the Gemini adapter into the generation config
is the input record with exactly the top-level meta-keywords `$schema`,
`$id`, `definitions` and `$defs` removed: those keys look up to nothing in
the converted schema, every other key looks up unchanged, and the adapter
works on a copy so the caller record itself is untouched (the conversion is
a pure function of the input). -/
theorem c9_gemini_schema_strip :
    (∀ (schema : List (String × Json)) (k : String),
      (k ∈ geminiUnsupportedKeywords → (convertToGeminiSchema schema).lookup k = none) ∧
      (k ∉ geminiUnsupportedKeywords →
        (convertToGeminiSchema schema).lookup k = schema.lookup k)) ∧
    (∀ (g : GeminiProvider) (request : LLMRequest),
      (GeminiProvider.buildApiPayload g request).generationConfig.responseSchema =
        convertToGeminiSchema request.outputSchema) := by
  refine ⟨fun schema k => ⟨?_, ?_⟩, fun g r => rfl⟩
  · intro hk
    exact lookup_filter_banned k hk schema
  · intro hk
    exact lookup_filter_keep k hk schema

/-- Witness for C9 on a concrete schema record. -/
theorem c9_gemini_schema_strip_witness :
    ("$schema" ∈ geminiUnsupportedKeywords ∧
      (convertToGeminiSchema
        [("$schema", Json.str "http://json-schema.org/draft-07/schema#"),
         ("type", Json.str "object")]).lookup "$schema" = none) ∧
    ("type" ∉ geminiUnsupportedKeywords ∧
      (convertToGeminiSchema
        [("$schema", Json.str "http://json-schema.org/draft-07/schema#"),
         ("type", Json.str "object")]).lookup "type"
      = ([("$schema", Json.str "http://json-schema.org/draft-07/schema#"),
          ("type", Json.str "object")] : List (String × Json)).lookup "type") :=
  ⟨⟨by decide,
    (c9_gemini_schema_strip.1
      [("$schema", Json.str "http://json-schema.org/draft-07/schema#"),
       ("type", Json.str "object")] "$schema").1 (by decide)⟩,
   ⟨by decide,
    (c9_gemini_schema_strip.1
      [("$schema", Json.str "http://json-schema.org/draft-07/schema#"),
       ("type", Json.str "object")] "type").2 (by decide)⟩⟩

/-- Counterexample for C5: in the organization-path `handleAIRequest` of
`src/routes/ai.ts`, a POST to a text-input/structured-output endpoint whose
body is `{}` (no `text` key) is not rejected with a validation error; the
handler proceeds all the way to the provider call (`generate` is invoked)
and the caller receives the 500 LLM-failure response, not a 400. -/
theorem c5_counterexample :
    (handleAIRequestOrg true true (some sampleTextEndpoint) (some sampleKey)
        sampleRequestNoText sampleDecrypt (.error "boom") 7).generateCalled = true ∧
    (handleAIRequestOrg true true (some sampleTextEndpoint) (some sampleKey)
        sampleRequestNoText sampleDecrypt (.error "boom") 7).response
      = .errorJson 500 ("LLM processing failed: " ++ "boom") := by
  constructor <;> rfl

/-- C5 (amended): in the legacy two-segment `handleAIRequest`, a non-GET
request to a text-input endpoint whose decoded body has no string `text`
field yields the 400 validation error, with no analytics row and with
neither `generate` nor `buildApiPayload` invoked; the organization-path
router performs no such check (see the counterexample). -/
theorem c5_text_validation
    (endpoint : EndpointRecord) (keyFound : Option LlmKeyRecord) (req : AIRequest)
    (decrypt : String → String → String) (generateResult : Except String LLMResponse)
    (failLatencyMs : ℤ) (body : Json)
    (ht : endpoint.endpoint_type = .text_in_structured_out
        ∨ endpoint.endpoint_type = .text_in_api_out)
    (hm : endpoint.http_method = req.method)
    (hng : ¬req.method = "GET")
    (hb : req.body = some body)
    (hnotext : ∀ t : String, ¬jsGetField body "text" = some (Json.str t)) :
    handleAIRequestLegacy true (some endpoint) keyFound req decrypt generateResult
        failLatencyMs
      = ⟨.errorJson 400 "Request body must have a \"text\" field for text input endpoints",
         [], false, false⟩ := by
  have hext : inputExtractLegacy endpoint req
      = .error (.errorJson 400
          "Request body must have a \"text\" field for text input endpoints") := by
    cases hj : jsGetField body "text" with
    | none => simp [inputExtractLegacy, hng, hb, ht, hj]
    | some v =>
      cases v with
      | str t => exact absurd hj (hnotext t)
      | null => simp [inputExtractLegacy, hng, hb, ht, hj]
      | bool b => simp [inputExtractLegacy, hng, hb, ht, hj]
      | num n => simp [inputExtractLegacy, hng, hb, ht, hj]
      | arr xs => simp [inputExtractLegacy, hng, hb, ht, hj]
      | obj fs => simp [inputExtractLegacy, hng, hb, ht, hj]
  simp [handleAIRequestLegacy, hm, hext]

/-- Witness for C5 at the concrete no-text request. -/
theorem c5_text_validation_witness :
    (sampleTextEndpoint.endpoint_type = .text_in_structured_out ∨
      sampleTextEndpoint.endpoint_type = .text_in_api_out) ∧
    sampleTextEndpoint.http_method = sampleRequestNoText.method ∧
    ¬sampleRequestNoText.method = "GET" ∧
    sampleRequestNoText.body = some (Json.obj []) ∧
    (∀ t : String, ¬jsGetField (Json.obj []) "text" = some (Json.str t)) ∧
    handleAIRequestLegacy true (some sampleTextEndpoint) (some sampleKey)
        sampleRequestNoText sampleDecrypt (.error "boom") 7
      = ⟨.errorJson 400 "Request body must have a \"text\" field for text input endpoints",
         [], false, false⟩ :=
  ⟨Or.inl rfl, rfl, by decide, rfl,
   fun t h => by simp [jsGetField, List.lookup] at h,
   c5_text_validation sampleTextEndpoint (some sampleKey) sampleRequestNoText sampleDecrypt
     (.error "boom") 7 (Json.obj []) (Or.inl rfl) rfl (by decide) rfl
     (fun t h => by simp [jsGetField, List.lookup] at h)⟩

/-- C6: whenever either orchestrator reaches the provider call and
`generate` fails with message `e`, the handler writes exactly one analytics
row — `success = false`, `error_message = e` (non-empty whenever the raised
error message is, which holds for every raise in the four adapters), and
the latency observed at the failure point — and returns the 500
`LLM processing failed: <detail>` error. -/
theorem c6_failure_analytics :
    (∀ (endpoint : EndpointRecord) (llmKey : LlmKeyRecord) (req : AIRequest)
        (decrypt : String → String → String) (e : String) (failLatencyMs : ℤ)
        (inputData : Json) (prov : ProviderInstance),
      callsLLM endpoint.endpoint_type = true →
      endpoint.http_method = req.method →
      inputExtractLegacy endpoint req = .ok inputData →
      createLLMProvider llmKey.provider
          ⟨decryptedApiKey llmKey decrypt, llmKey.endpoint_url, none⟩ = .ok prov →
      e ≠ "" →
      handleAIRequestLegacy true (some endpoint) (some llmKey) req decrypt (.error e)
          failLatencyMs
        = ⟨.errorJson 500 ("LLM processing failed: " ++ e),
           [⟨false, some e, none, none, some failLatencyMs, none⟩], true, false⟩) ∧
    (∀ (endpoint : EndpointRecord) (llmKey : LlmKeyRecord) (req : AIRequest)
        (decrypt : String → String → String) (e : String) (failLatencyMs : ℤ)
        (body : Json) (prov : ProviderInstance),
      endpoint.http_method = req.method →
      ¬req.method = "GET" →
      req.body = some body →
      createLLMProvider llmKey.provider
          ⟨decryptedApiKey llmKey decrypt, llmKey.endpoint_url, none⟩ = .ok prov →
      e ≠ "" →
      handleAIRequestOrg true true (some endpoint) (some llmKey) req decrypt (.error e)
          failLatencyMs
        = ⟨.errorJson 500 ("LLM processing failed: " ++ e),
           [⟨false, some e, none, none, some failLatencyMs, none⟩], true, false⟩) := by
  constructor
  · intro endpoint llmKey req decrypt e failLatencyMs inputData prov hc hm hi hp he
    simp [handleAIRequestLegacy, hm, hi, hc, hp]
  · intro endpoint llmKey req decrypt e failLatencyMs body prov hm hng hb hp he
    simp [handleAIRequestOrg, hm, hng, hb, hp]

/-- Witness for C6 at a concrete failing generation. -/
theorem c6_failure_analytics_witness :
    callsLLM sampleLLMEndpoint.endpoint_type = true ∧
    inputExtractLegacy sampleLLMEndpoint sampleRequestNoText = .ok (Json.obj []) ∧
    createLLMProvider sampleKey.provider
        ⟨decryptedApiKey sampleKey sampleDecrypt, sampleKey.endpoint_url, none⟩
      = .ok (.anthropic ⟨"sk-decrypted", "claude-3-5-sonnet-20241022"⟩) ∧
    ("Expected tool_use response from Anthropic" : String) ≠ "" ∧
    handleAIRequestLegacy true (some sampleLLMEndpoint) (some sampleKey) sampleRequestNoText
        sampleDecrypt (.error "Expected tool_use response from Anthropic") 42
      = ⟨.errorJson 500 ("LLM processing failed: "
            ++ "Expected tool_use response from Anthropic"),
         [⟨false, some "Expected tool_use response from Anthropic", none, none, some 42,
           none⟩], true, false⟩ ∧
    handleAIRequestOrg true true (some sampleLLMEndpoint) (some sampleKey) sampleRequestNoText
        sampleDecrypt (.error "Expected tool_use response from Anthropic") 42
      = ⟨.errorJson 500 ("LLM processing failed: "
            ++ "Expected tool_use response from Anthropic"),
         [⟨false, some "Expected tool_use response from Anthropic", none, none, some 42,
           none⟩], true, false⟩ :=
  ⟨rfl, rfl, rfl, by decide,
   c6_failure_analytics.1 sampleLLMEndpoint sampleKey sampleRequestNoText sampleDecrypt
     "Expected tool_use response from Anthropic" 42 (Json.obj [])
     (.anthropic ⟨"sk-decrypted", "claude-3-5-sonnet-20241022"⟩)
     rfl rfl rfl rfl (by decide),
   c6_failure_analytics.2 sampleLLMEndpoint sampleKey sampleRequestNoText sampleDecrypt
     "Expected tool_use response from Anthropic" 42 (Json.obj [])
     (.anthropic ⟨"sk-decrypted", "claude-3-5-sonnet-20241022"⟩)
     rfl (by decide) rfl rfl (by decide)⟩

/-- C7: in the legacy orchestrator (the only variant with a payload-only
branch), a request to a payload-only endpoint never invokes `generate` and
writes no analytics row, on any path; and on the successful path the
handler invokes `buildApiPayload` and returns its native payload together
with the provider tag and the endpoint hint. -/
theorem c7_payload_only :
    (∀ (projectFound : Bool) (endpoint : EndpointRecord) (keyFound : Option LlmKeyRecord)
        (req : AIRequest) (decrypt : String → String → String)
        (generateResult : Except String LLMResponse) (failLatencyMs : ℤ),
      isPayloadOnly endpoint.endpoint_type = true →
      (handleAIRequestLegacy projectFound (some endpoint) keyFound req decrypt generateResult
          failLatencyMs).generateCalled = false ∧
      (handleAIRequestLegacy projectFound (some endpoint) keyFound req decrypt generateResult
          failLatencyMs).events = []) ∧
    (∀ (endpoint : EndpointRecord) (llmKey : LlmKeyRecord) (req : AIRequest)
        (decrypt : String → String → String)
        (generateResult : Except String LLMResponse) (failLatencyMs : ℤ)
        (inputData : Json) (prov : ProviderInstance),
      isPayloadOnly endpoint.endpoint_type = true →
      endpoint.http_method = req.method →
      inputExtractLegacy endpoint req = .ok inputData →
      createLLMProvider llmKey.provider
          ⟨decryptedApiKey llmKey decrypt, llmKey.endpoint_url, none⟩ = .ok prov →
      handleAIRequestLegacy true (some endpoint) (some llmKey) req decrypt generateResult
          failLatencyMs
        = ⟨.payloadJson
             (prov.buildApiPayload
               { prompt := (buildPrompts inputData
                   (endpoint.output_schema.map schemaOfJsonFields) endpoint.description
                   (isStructuredInput endpoint.endpoint_type)).2
                 systemPrompt := some (buildPrompts inputData
                   (endpoint.output_schema.map schemaOfJsonFields) endpoint.description
                   (isStructuredInput endpoint.endpoint_type)).1
                 outputSchema := endpoint.output_schema.getD [("type", Json.str "object")]
                 model := none
                 temperature := none
                 maxTokens := none })
             llmKey.provider
             (if llmKey.provider = .llm_server then llmKey.endpoint_url
              else some (PROVIDER_ENDPOINTS llmKey.provider)),
           [], false, true⟩) := by
  constructor
  · intro projectFound endpoint keyFound req decrypt generateResult failLatencyMs hpo
    simp only [isPayloadOnly] at hpo
    have hc : callsLLM endpoint.endpoint_type = false := by
      cases h : callsLLM endpoint.endpoint_type
      · rfl
      · rw [h] at hpo
        simp at hpo
    cases projectFound with
    | false => exact ⟨rfl, rfl⟩
    | true =>
      by_cases hm : endpoint.http_method ≠ req.method
      · constructor <;> simp [handleAIRequestLegacy, hm]
      · cases hext : inputExtractLegacy endpoint req with
        | error resp => constructor <;> simp [handleAIRequestLegacy, hm, hext]
        | ok inputData =>
          cases keyFound with
          | none => constructor <;> simp [handleAIRequestLegacy, hm, hext]
          | some llmKey =>
            cases hres : createLLMProvider llmKey.provider
                ⟨decryptedApiKey llmKey decrypt, llmKey.endpoint_url, none⟩ with
            | error e =>
              constructor <;> simp [handleAIRequestLegacy, hm, hext, hc, hres]
            | ok prov =>
              constructor <;> simp [handleAIRequestLegacy, hm, hext, hc, hres]
  · intro endpoint llmKey req decrypt generateResult failLatencyMs inputData prov hpo hm hi hp
    simp only [isPayloadOnly] at hpo
    have hc : callsLLM endpoint.endpoint_type = false := by
      cases h : callsLLM endpoint.endpoint_type
      · rfl
      · rw [h] at hpo
        simp at hpo
    simp [handleAIRequestLegacy, hm, hi, hc, hp]

/-- Witness for C7 at a concrete payload-only request. -/
theorem c7_payload_only_witness :
    isPayloadOnly samplePayloadEndpoint.endpoint_type = true ∧
    inputExtractLegacy samplePayloadEndpoint sampleRequestNoText = .ok (Json.obj []) ∧
    createLLMProvider sampleKey.provider
        ⟨decryptedApiKey sampleKey sampleDecrypt, sampleKey.endpoint_url, none⟩
      = .ok (.anthropic ⟨"sk-decrypted", "claude-3-5-sonnet-20241022"⟩) ∧
    ((handleAIRequestLegacy true (some samplePayloadEndpoint) (some sampleKey)
        sampleRequestNoText sampleDecrypt (.error "never called") 7).generateCalled = false ∧
      (handleAIRequestLegacy true (some samplePayloadEndpoint) (some sampleKey)
        sampleRequestNoText sampleDecrypt (.error "never called") 7).events = []) ∧
    handleAIRequestLegacy true (some samplePayloadEndpoint) (some sampleKey)
        sampleRequestNoText sampleDecrypt (.error "never called") 7
      = ⟨.payloadJson
           ((ProviderInstance.anthropic
              ⟨"sk-decrypted", "claude-3-5-sonnet-20241022"⟩).buildApiPayload
             { prompt := (buildPrompts (Json.obj [])
                 (samplePayloadEndpoint.output_schema.map schemaOfJsonFields)
                 samplePayloadEndpoint.description
                 (isStructuredInput samplePayloadEndpoint.endpoint_type)).2
               systemPrompt := some (buildPrompts (Json.obj [])
                 (samplePayloadEndpoint.output_schema.map schemaOfJsonFields)
                 samplePayloadEndpoint.description
                 (isStructuredInput samplePayloadEndpoint.endpoint_type)).1
               outputSchema := samplePayloadEndpoint.output_schema.getD
                 [("type", Json.str "object")]
               model := none
               temperature := none
               maxTokens := none })
           sampleKey.provider
           (if sampleKey.provider = .llm_server then sampleKey.endpoint_url
            else some (PROVIDER_ENDPOINTS sampleKey.provider)),
         [], false, true⟩ :=
  ⟨rfl, rfl, rfl,
   c7_payload_only.1 true samplePayloadEndpoint (some sampleKey) sampleRequestNoText
     sampleDecrypt (.error "never called") 7 rfl,
   c7_payload_only.2 samplePayloadEndpoint sampleKey sampleRequestNoText sampleDecrypt
     (.error "never called") 7 (Json.obj [])
     (.anthropic ⟨"sk-decrypted", "claude-3-5-sonnet-20241022"⟩) rfl rfl rfl rfl⟩

end Shapeshyft
